import Mathlib

/-!
Verification of the geo2wiki-osm repository (two program variants:
`geo2wiki-osm.py`, called v1 below, and `geo2wiki-osm_v3.py`, called v3).

The programs are shallowly embedded: HTTP traffic is represented by response
values handed to the client functions (an "oracle" gives the response of each
call), Python dicts become association lists, Python `None`/truthiness becomes
`Option` plus explicit truthiness predicates, float arithmetic on coordinates
is embedded as exact `ℚ`/`ℝ` arithmetic, and code that can raise a Python
exception returns `Except String`.
-/

namespace GeoToWiki

/-- A Python JSON object restricted to string values, as an association list
(used for `tags` dicts and the Nominatim reverse-geocode JSON). -/
abbrev TagDict := List (String × String)

/-- Python `d.get(k)`: the first binding of key `k`, if any. -/
def tagGet (d : TagDict) (k : String) : Option String :=
  (d.find? (fun p => p.1 == k)).map (fun p => p.2)

/-- Python truthiness of `d.get(k)` for a string value: present and non-empty. -/
def tagTruthy (d : TagDict) (k : String) : Bool :=
  match tagGet d k with
  | some v => v != ""
  | none => false

/-- One entry of Wikipedia's `query.geosearch` array: `{title, lat, lon}`. -/
structure Place where
  title : String
  lat : ℚ
  lon : ℚ
deriving DecidableEq

/-- One vertex of an Overpass `way` geometry: `{"lat": .., "lon": ..}`. -/
structure GeoNode where
  lat : ℚ
  lon : ℚ
deriving DecidableEq

/-- One Overpass element.  `lat`/`lon` are the element's own coordinate fields
(meaningful for `"node"` elements, which always carry them); `geometry` is the
vertex list of a `"way"`; `tags` is absent when the element has no `tags` key. -/
structure OsmElement where
  type : String
  id : Nat
  lat : ℚ
  lon : ℚ
  geometry : List GeoNode
  tags : Option TagDict
deriving DecidableEq

/-- An HTTP response as seen by a client: a status code and the decoded JSON
body of interest (the body is only inspected on the statuses the code reads). -/
structure HttpJsonResp (α : Type) where
  status : Nat
  body : α
deriving DecidableEq

/-- The key `"name"`. -/
def nameKey : String := "name"

/-- The key `"display_name"`. -/
def displayNameKey : String := "display_name"

/-! ## Clients -/

/-- v1 `get_wikipedia_geosearch`: on HTTP 200 it reads
`data["query"]["geosearch"]` (a `KeyError` if the 200 body lacks that path;
`body = none` models such a body) and rebuilds the list of places; on any other
status it prints a diagnostic and returns `[]`. -/
def get_wikipedia_geosearch_v1 (r : HttpJsonResp (Option (List Place))) :
    Except String (List Place) :=
  if r.status = 200 then
    match r.body with
    | some items => Except.ok items
    | none => Except.error ("KeyError: query.geosearch")
  else Except.ok []

/-- v3 `get_wikipedia_geosearch`: on HTTP 200 it returns the whole decoded JSON
(`some body`, where `body = some l` means the JSON has `query.geosearch = l`);
on any other status it prints a diagnostic and returns `None`. -/
def get_wikipedia_geosearch_v3 (r : HttpJsonResp (Option (List Place))) :
    Option (Option (List Place)) :=
  if r.status = 200 then some r.body else none

/-- `get_osm_administrative_info` (identical in both variants): on HTTP 200 it
returns the decoded JSON, otherwise it prints a diagnostic and returns `None`. -/
def get_osm_administrative_info (r : HttpJsonResp TagDict) : Option TagDict :=
  if r.status = 200 then some r.body else none

/-- `get_osm_nearby_features` (identical in both variants), run against the
stream of successive HTTP responses its (recursive) calls receive.  On 200 it
returns the decoded JSON (`some body`, where `body = some els` means the JSON
has an `"elements"` array `els`); on 429 it sleeps 60 s and calls itself again,
consuming the next response; on any other status it returns `None`.  The second
component counts the HTTP requests issued.  An exhausted stream yields
`(none, 0)` (unreachable when every request gets a response). -/
def get_osm_nearby_features (rs : List (HttpJsonResp (Option (List OsmElement)))) :
    Option (Option (List OsmElement)) × Nat :=
  match rs with
  | [] => (none, 0)
  | r :: rest =>
    if r.status = 200 then (some r.body, 1)
    else if r.status = 429 then
      let p := get_osm_nearby_features rest
      (p.1, p.2 + 1)
    else (none, 1)

/-- One page record of the v3 URL-resolution response (`query.pages` value):
it may or may not carry a `fullurl` field. -/
structure UrlPage where
  fullurl : Option String
deriving DecidableEq

/-- v3 `get_wikipedia_url`: on HTTP 200 it reads
`next(iter(data["query"]["pages"].values()))["fullurl"]` — a `KeyError` when
the body lacks `query.pages` (`body = none`) or the page lacks `fullurl`, and a
`StopIteration` when `pages` is empty; on any other status it prints a
diagnostic and returns `None`. -/
def get_wikipedia_url_v3 (r : HttpJsonResp (Option (List UrlPage))) :
    Except String (Option String) :=
  if r.status = 200 then
    match r.body with
    | none => Except.error ("KeyError: query.pages")
    | some [] => Except.error ("StopIteration")
    | some (p :: _) =>
      match p.fullurl with
      | none => Except.error ("KeyError: fullurl")
      | some u => Except.ok (some u)
  else Except.ok none

/-- Hex digit (upper case) of a number below 16, as `urllib.parse.quote` emits. -/
def hexDigit (n : Nat) : Char :=
  if n < 10 then Char.ofNat (48 + n) else Char.ofNat (55 + n)

/-- Is a byte in `urllib.parse.quote`'s default safe set (unreserved characters
`A-Z a-z 0-9 _ . - ~` plus the default `safe='/'`)? -/
def quoteSafeByte (n : Nat) : Bool :=
  (65 ≤ n && n ≤ 90) || (97 ≤ n && n ≤ 122) || (48 ≤ n && n ≤ 57) ||
    n == 95 || n == 46 || n == 45 || n == 126 || n == 47

/-- `urllib.parse.quote` on one UTF-8 byte. -/
def quoteByte (b : UInt8) : String :=
  let n := b.toNat
  if quoteSafeByte n then String.singleton (Char.ofNat n)
  else String.singleton (Char.ofNat 37) ++ String.singleton (hexDigit (n / 16))
    ++ String.singleton (hexDigit (n % 16))

/-- `urllib.parse.quote` with its default safe characters, over UTF-8 bytes. -/
def pyQuote (s : String) : String :=
  (s.toUTF8.toList.map quoteByte).foldl (fun a b => a ++ b) ""

/-- v1 `get_wikipedia_url`: pure string synthesis, no HTTP call. -/
def get_wikipedia_url_v1 (title : String) : String :=
  "https://en.wikipedia.org/wiki/" ++ pyQuote (title.replace (" ") ("_"))

/-! ## Centroids -/

/-- v3 `calculate_centroid`: arithmetic mean of the vertex latitudes and
longitudes, or `(None, None)` for an empty geometry. -/
def calculate_centroid_v3 (geometry : List GeoNode) : Option ℚ × Option ℚ :=
  if geometry.isEmpty then (none, none)
  else
    (some ((geometry.map GeoNode.lat).sum / (geometry.length : ℚ)),
     some ((geometry.map GeoNode.lon).sum / (geometry.length : ℚ)))

/-- Area centroid of the polygon with the given `(x, y)` vertex ring (the ring
is closed implicitly), by the standard shoelace formulas
`A = (1/2) Σ (xᵢ y_{i+1} - x_{i+1} yᵢ)`,
`Cx = (1/(6A)) Σ (xᵢ + x_{i+1}) (xᵢ y_{i+1} - x_{i+1} yᵢ)`, and symmetrically
for `Cy`. -/
def polygonCentroid (ps : List (ℚ × ℚ)) : ℚ × ℚ :=
  match ps with
  | [] => (0, 0)
  | p0 :: _ =>
    let edges := ps.zip (ps.tail ++ [p0])
    let cross := fun (e : (ℚ × ℚ) × (ℚ × ℚ)) => e.1.1 * e.2.2 - e.2.1 * e.1.2
    let doubleArea := (edges.map cross).sum
    ((edges.map (fun e => (e.1.1 + e.2.1) * cross e)).sum / (3 * doubleArea),
     (edges.map (fun e => (e.1.2 + e.2.2) * cross e)).sum / (3 * doubleArea))

/-- v1 `calculate_centroid`.  Modelled from the spec: the body delegates to the
external shapely library (`Polygon([(lon, lat) … ]).centroid`), which is not
part of this repository; the spec calls it the way's "geometric centroid".  It
is modelled as the standard area centroid of the closed vertex ring, and
shapely's `Polygon` constructor raising `ValueError` ("A LinearRing must have
at least 3 coordinate tuples") on 1- or 2-vertex input.  The function returns
`(centroid.y, centroid.x)`, i.e. `(lat, lon)`; an empty geometry short-circuits
to `(None, None)` before shapely is reached. -/
def calculate_centroid_v1 (geometry : List GeoNode) :
    Except String (Option ℚ × Option ℚ) :=
  if geometry.isEmpty then Except.ok (none, none)
  else if geometry.length < 3 then Except.error ("ValueError: LinearRing")
  else
    let c := polygonCentroid (geometry.map (fun n => (n.lon, n.lat)))
    Except.ok (some c.2, some c.1)

/-! ## The radius-expansion controller loop

Each iteration submits three client calls; the loop only observes the values
the clients return, so an iteration's responses are modelled as the clients'
return values, supplied by an oracle indexed by the iteration number. -/

/-- The client return values observed by one v3 loop iteration. -/
structure IterRespV3 where
  wiki : Option (Option (List Place))
  admin : Option TagDict
  features : Option (Option (List OsmElement))
deriving DecidableEq

/-- The client return values observed by one v1 loop iteration (the v1
geosearch client returns a plain list, `[]` on failure). -/
structure IterRespV1 where
  wiki : List Place
  admin : Option TagDict
  features : Option (Option (List OsmElement))
deriving DecidableEq

/-- The mutable program state read and written by the controller loop, plus an
iteration counter. -/
structure LoopState where
  currentRadius : Nat
  wikiResults : List Place
  osmAdminData : Option TagDict
  osmFeaturesData : List OsmElement
  iterations : Nat
deriving DecidableEq

/-- Python truthiness of `osm_admin_data`: non-`None` and a non-empty dict. -/
def adminTruthy : Option TagDict → Bool
  | some d => !d.isEmpty
  | none => false

/-- The cache guard `if not osm_admin_data: osm_admin_data = <response>`. -/
def adminUpdate (old r : Option TagDict) : Option TagDict :=
  if adminTruthy old then old else r

/-- `if osm_features and "elements" in osm_features: … .extend(…)`: the
elements merged into the accumulator from one features-client return value. -/
def featuresElems : Option (Option (List OsmElement)) → List OsmElement
  | some (some els) => els
  | _ => []

/-- The loop condition `current_radius <= max_radius and len(wiki_results) <
min_results` (identical in both variants). -/
def loopGuard (maxRadius minResults : Nat) (s : LoopState) : Bool :=
  decide (s.currentRadius ≤ maxRadius) && decide (s.wikiResults.length < minResults)

/-- The wiki branch of a v3 iteration, giving the new radius and result list.
The branch condition is `wiki_data and "query" in wiki_data and
wiki_data["query"]["geosearch"]`; when it holds with at least `min_results`
entries the radius is left unchanged (the loop condition then fails),
otherwise `current_radius += radius_increment` and, when the condition held at
all, `wiki_results` is overwritten. -/
def wikiBranchV3 (minResults increment : Nat) (w : Option (Option (List Place)))
    (s : LoopState) : Nat × List Place :=
  match w with
  | some (some l) =>
    if l.isEmpty then (s.currentRadius + increment, s.wikiResults)
    else if minResults ≤ l.length then (s.currentRadius, l)
    else (s.currentRadius + increment, l)
  | _ => (s.currentRadius + increment, s.wikiResults)

/-- One v3 loop iteration body: the admin cache guard, the feature-accumulator
extension, and the wiki branch. -/
def stepV3 (minResults increment : Nat) (r : IterRespV3) (s : LoopState) : LoopState :=
  { currentRadius := (wikiBranchV3 minResults increment r.wiki s).1,
    wikiResults := (wikiBranchV3 minResults increment r.wiki s).2,
    osmAdminData := adminUpdate s.osmAdminData r.admin,
    osmFeaturesData := s.osmFeaturesData ++ featuresElems r.features,
    iterations := s.iterations + 1 }

/-- The v3 controller loop, with explicit fuel: `none` means the fuel ran out
before the loop condition became false (never happens with enough fuel, by
`runLoopV3_total`). -/
def runLoopV3 (oracle : Nat → IterRespV3) (maxRadius minResults increment : Nat) :
    Nat → LoopState → Option LoopState
  | 0, s => if loopGuard maxRadius minResults s then none else some s
  | fuel + 1, s =>
    if loopGuard maxRadius minResults s then
      runLoopV3 oracle maxRadius minResults increment fuel
        (stepV3 minResults increment (oracle s.iterations) s)
    else some s

/-- The v1 loop iteration body before the break test: `wiki_results` is
overwritten by the client's return value, the admin cache and the feature
accumulator are updated, the radius is untouched. -/
def stepV1 (r : IterRespV1) (s : LoopState) : LoopState :=
  { currentRadius := s.currentRadius,
    wikiResults := r.wiki,
    osmAdminData := adminUpdate s.osmAdminData r.admin,
    osmFeaturesData := s.osmFeaturesData ++ featuresElems r.features,
    iterations := s.iterations + 1 }

/-- The v1 controller loop: `if wiki_results: if len(wiki_results) >=
min_results: break`, otherwise `current_radius += radius_increment` and repeat. -/
def runLoopV1 (oracle : Nat → IterRespV1) (maxRadius minResults increment : Nat) :
    Nat → LoopState → Option LoopState
  | 0, s => if loopGuard maxRadius minResults s then none else some s
  | fuel + 1, s =>
    if loopGuard maxRadius minResults s then
      let r := oracle s.iterations
      let t := stepV1 r s
      if !r.wiki.isEmpty && decide (minResults ≤ r.wiki.length) then some t
      else runLoopV1 oracle maxRadius minResults increment fuel
        { t with currentRadius := t.currentRadius + increment }
    else some s

/-- The state both programs start the loop in: `current_radius =
initial_radius`, `wiki_results = []`, `osm_admin_data = None`,
`osm_features_data = []`. -/
def initState (initialRadius : Nat) : LoopState :=
  { currentRadius := initialRadius, wikiResults := [], osmAdminData := none,
    osmFeaturesData := [], iterations := 0 }

/-- Upper bound on the iterations still possible from radius `rad`. -/
def radMeasure (maxRadius increment rad : Nat) : Nat :=
  if maxRadius < rad then 0 else (maxRadius - rad) / increment + 1

/-- The spec's loop bound `ceil((maxRadius - initialRadius) / increment) + 1`
(with truncated subtraction when `initialRadius > maxRadius`). -/
def iterBound (maxRadius initialRadius increment : Nat) : Nat :=
  (maxRadius - initialRadius + increment - 1) / increment + 1

/-- The admin-client return values of iterations `start, …, start+k-1`. -/
def adminSeq (oracle : Nat → IterRespV3) (start : Nat) : Nat → List (Option TagDict)
  | 0 => []
  | k + 1 => (oracle start).admin :: adminSeq oracle (start + 1) k

/-- v1 version of `adminSeq`. -/
def adminSeqV1 (oracle : Nat → IterRespV1) (start : Nat) : Nat → List (Option TagDict)
  | 0 => []
  | k + 1 => (oracle start).admin :: adminSeqV1 oracle (start + 1) k

/-! ## Distance computation -/

/-- v1 center `(38.897685330838804, -77.03653317988284)` (the White House). -/
def center_lat_v1 : ℚ := 38.897685330838804

/-- v1 center longitude. -/
def center_lon_v1 : ℚ := -77.03653317988284

/-- v3 center `(38.89777476492068, -77.03654524519337)` (the White House). -/
def center_lat_v3 : ℚ := 38.89777476492068

/-- v3 center longitude. -/
def center_lon_v3 : ℚ := -77.03654524519337

/-- `math.radians`: degrees to radians. -/
noncomputable def radians (x : ℝ) : ℝ := x * Real.pi / 180

/-- `math.atan2 y x`, by its usual piecewise definition over `Real.arctan`
(`atan2 0 0 = 0`, as in Python). -/
noncomputable def atan2 (y x : ℝ) : ℝ :=
  if 0 < x then Real.arctan (y / x)
  else if x < 0 ∧ 0 ≤ y then Real.arctan (y / x) + Real.pi
  else if x < 0 ∧ y < 0 then Real.arctan (y / x) - Real.pi
  else if x = 0 ∧ 0 < y then Real.pi / 2
  else if x = 0 ∧ y < 0 then -(Real.pi / 2)
  else 0

/-- v3 `haversine_distance`: haversine formula with Earth radius 6 371 000 m,
`round`ed to the nearest integer number of meters. -/
noncomputable def haversine_distance (lat1 lon1 lat2 lon2 : ℝ) : ℤ :=
  let R : ℝ := 6371000
  let phi1 := radians lat1
  let phi2 := radians lat2
  let delta_phi := radians (lat2 - lat1)
  let delta_lambda := radians (lon2 - lon1)
  let a := Real.sin (delta_phi / 2) ^ 2 +
    Real.cos phi1 * Real.cos phi2 * Real.sin (delta_lambda / 2) ^ 2
  let c := 2 * atan2 (Real.sqrt a) (Real.sqrt (1 - a))
  round (R * c)

/-- The distance v1 emits.  Modelled from the spec: v1 calls the external
`haversine` package (`haversine(center, point, unit=Unit.METERS)`), which is
not part of this repository; per the spec's source note it is the library
haversine value, unrounded.  The package computes
`2 * R * asin(sqrt(a))` with the mean Earth radius `R = 6371.0088 km`
(in meters here) after converting the coordinates to radians. -/
noncomputable def haversine_library (lat1 lon1 lat2 lon2 : ℝ) : ℝ :=
  let R : ℝ := 6371.0088 * 1000
  let phi1 := radians lat1
  let phi2 := radians lat2
  let delta_phi := radians (lat2 - lat1)
  let delta_lambda := radians (lon2 - lon1)
  let a := Real.sin (delta_phi / 2) ^ 2 +
    Real.cos phi1 * Real.cos phi2 * Real.sin (delta_lambda / 2) ^ 2
  2 * R * Real.arcsin (Real.sqrt a)

/-! ## Report builder -/

/-- One entry of `csv_data`: `[source, name, lat, lon, distance, url]`.
Empty-string placeholder cells are `none`; v3's distance cells hold the
(integral) rounded haversine value, v1's the unrounded library value. -/
structure ReportRow where
  source : String
  name : String
  lat : Option ℚ
  lon : Option ℚ
  dist : Option ℝ
  url : Option String

/-- The `["Wikipedia", "No results found", "", "", "", ""]` placeholder. -/
def wikiPlaceholder : ReportRow :=
  { source := "Wikipedia", name := "No results found", lat := none, lon := none,
    dist := none, url := some "" }

/-- The `["OSM", "No administrative info found", "", "", "", "null"]`
placeholder. -/
def adminPlaceholder : ReportRow :=
  { source := "OSM", name := "No administrative info found", lat := none,
    lon := none, dist := none, url := some "null" }

/-- The `["OSM", "No nearby features found", "", "", "", "null"]` placeholder. -/
def featPlaceholder : ReportRow :=
  { source := "OSM", name := "No nearby features found", lat := none,
    lon := none, dist := none, url := some "null" }

/-- `max_results = 20` (both variants). -/
def max_results : Nat := 20

/-- The v3 Wikipedia rows for a list of places: each row resolves its URL with
`get_wikipedia_url` (an HTTP call, answered by `urlOracle`, whose failure
propagates as an exception) and carries the rounded haversine distance from the
v3 center. -/
noncomputable def wiki_row_v3 (p : Place) (u : Option String) : ReportRow :=
  { source := "Wikipedia", name := p.title, lat := some p.lat, lon := some p.lon,
    dist := some ((haversine_distance (center_lat_v3 : ℝ) (center_lon_v3 : ℝ)
      (p.lat : ℝ) (p.lon : ℝ) : ℤ) : ℝ),
    url := u }

/-- The per-place emission loop of the v3 Wikipedia section (see
`wiki_row_v3` for the row shape). -/
noncomputable def wiki_rows_v3 (urlOracle : String → HttpJsonResp (Option (List UrlPage))) :
    List Place → Except String (List ReportRow)
  | [] => Except.ok []
  | p :: ps => do
    let u ← get_wikipedia_url_v3 (urlOracle p.title)
    let rest ← wiki_rows_v3 urlOracle ps
    Except.ok (wiki_row_v3 p u :: rest)

/-- The v3 Wikipedia section: `if len(wiki_results) >= 1:` rows for
`wiki_results[:max_results]`, else the placeholder row. -/
noncomputable def wiki_section_v3 (urlOracle : String → HttpJsonResp (Option (List UrlPage)))
    (wikiResults : List Place) : Except String (List ReportRow) :=
  if 1 ≤ wikiResults.length then wiki_rows_v3 urlOracle (wikiResults.take max_results)
  else Except.ok [wikiPlaceholder]

/-- The v1 Wikipedia section: `if wiki_results:` one row per place in
`wiki_results[:max_results]`, distance from the external haversine library
(unrounded), URL synthesized purely; else the placeholder row. -/
noncomputable def wiki_section_v1 (wikiResults : List Place) : List ReportRow :=
  if wikiResults.isEmpty then [wikiPlaceholder]
  else (wikiResults.take max_results).map (fun p =>
    { source := "Wikipedia", name := p.title, lat := some p.lat, lon := some p.lon,
      dist := some (haversine_library (center_lat_v1 : ℝ) (center_lon_v1 : ℝ)
        (p.lat : ℝ) (p.lon : ℝ)),
      url := some (get_wikipedia_url_v1 p.title) })

/-- The v3 map-viewer URL for the admin row. -/
def adminUrlV3 : String :=
  "https://www.openstreetmap.org/?mlat=" ++ toString center_lat_v3 ++ "&mlon="
    ++ toString center_lon_v3 ++ "#map=10/" ++ toString center_lat_v3 ++ "/"
    ++ toString center_lon_v3

/-- The single v3 administrative row: display name, center coordinates,
distance `0`, map-viewer URL. -/
noncomputable def admin_row_v3 (n : String) : ReportRow :=
  { source := "OSM", name := n, lat := some center_lat_v3,
    lon := some center_lon_v3, dist := some 0, url := some adminUrlV3 }

/-- The v3 administrative section: `if osm_admin_data:` a single row reading
`osm_admin_data["display_name"]` (a `KeyError` when the truthy dict lacks it),
with the center coordinates, distance `0` and a map-viewer URL; else the
placeholder row. -/
noncomputable def admin_section_v3 (a : Option TagDict) : Except String (List ReportRow) :=
  match a with
  | some d =>
    if d.isEmpty then Except.ok [adminPlaceholder]
    else
      match tagGet d displayNameKey with
      | some n => Except.ok [admin_row_v3 n]
      | none => Except.error ("KeyError: display_name")
  | none => Except.ok [adminPlaceholder]

/-- `"tags" in element and element["tags"].get("name")`: the filter retaining
an element (tags present with a non-empty `name`). -/
def hasNameTag (e : OsmElement) : Bool :=
  match e.tags with
  | some d => tagTruthy d nameKey
  | none => false

/-- `filtered_osm_features` (identical filter in both variants). -/
def filtered_osm_features (es : List OsmElement) : List OsmElement :=
  es.filter hasNameTag

/-- The name a retained element is emitted under:
`element["tags"].get("name", "Unnamed")`. -/
def elementName (e : OsmElement) : String :=
  match e.tags with
  | some d => (tagGet d nameKey).getD "Unnamed"
  | none => "Unnamed"

/-- The representative coordinate of an element in v3: a node's own
coordinate, a way's v3 centroid, `(None, None)` otherwise. -/
def resolve_coordinate_v3 (e : OsmElement) : Option ℚ × Option ℚ :=
  if e.type == "node" then (some e.lat, some e.lon)
  else if e.type == "way" then calculate_centroid_v3 e.geometry
  else (none, none)

/-- One emitted v3 feature row. -/
noncomputable def feature_row_v3 (e : OsmElement) (la lo : ℚ) : ReportRow :=
  { source := "OSM", name := elementName e, lat := some la, lon := some lo,
    dist := some ((haversine_distance (center_lat_v3 : ℝ) (center_lon_v3 : ℝ)
      (la : ℝ) (lo : ℝ) : ℤ) : ℝ),
    url := some ("https://www.openstreetmap.org/" ++ e.type ++ "/" ++ toString e.id) }

/-- The body of the v3 feature-emission loop for one retained element: the
coordinate is resolved and the row is emitted only `if lat and lon:` — Python
truthiness, so `None` and the value `0` both fail the test. -/
noncomputable def feature_emit_v3 (e : OsmElement) : Option ReportRow :=
  match resolve_coordinate_v3 e with
  | (some la, some lo) =>
    if la != 0 && lo != 0 then some (feature_row_v3 e la lo) else none
  | _ => none

/-- The v3 rows of the retained features. -/
noncomputable def feature_rows_v3 (es : List OsmElement) : List ReportRow :=
  (filtered_osm_features es).filterMap feature_emit_v3

/-- The v3 nearby-features section: `if filtered_osm_features:` the guarded
per-element rows (possibly none at all), else the placeholder row. -/
noncomputable def feature_section_v3 (es : List OsmElement) : List ReportRow :=
  if (filtered_osm_features es).isEmpty then [featPlaceholder]
  else feature_rows_v3 es

/-- The whole v3 `csv_data`: Wikipedia rows, then the administrative row, then
the nearby-features rows, any raised exception propagating. -/
noncomputable def csv_data_v3 (urlOracle : String → HttpJsonResp (Option (List UrlPage)))
    (wikiResults : List Place) (adminData : Option TagDict)
    (featuresData : List OsmElement) : Except String (List ReportRow) := do
  let ws ← wiki_section_v3 urlOracle wikiResults
  let ar ← admin_section_v3 adminData
  Except.ok (ws ++ ar ++ feature_section_v3 featuresData)

/-- Does an element pass both the coordinate resolution and the truthiness
test `if lat and lon:` of the emission loop? -/
def resolvedNonzero (e : OsmElement) : Bool :=
  match resolve_coordinate_v3 e with
  | (some la, some lo) => la != 0 && lo != 0
  | _ => false

/-! ## The v1 report builder -/

/-- The representative coordinate of an element in v1: a node's own
coordinate, a way's shapely centroid (which can raise `ValueError`),
`(None, None)` otherwise. -/
def resolve_coordinate_v1 (e : OsmElement) : Except String (Option ℚ × Option ℚ) :=
  if e.type == "node" then Except.ok (some e.lat, some e.lon)
  else if e.type == "way" then calculate_centroid_v1 e.geometry
  else Except.ok (none, none)

/-- One emitted v1 feature row: distance from the v1 center by the external
haversine library, unrounded. -/
noncomputable def feature_row_v1 (e : OsmElement) (la lo : ℚ) : ReportRow :=
  { source := "OSM", name := elementName e, lat := some la, lon := some lo,
    dist := some (haversine_library (center_lat_v1 : ℝ) (center_lon_v1 : ℝ)
      (la : ℝ) (lo : ℝ)),
    url := some ("https://www.openstreetmap.org/" ++ e.type ++ "/" ++ toString e.id) }

/-- The body of the v1 feature-emission loop for one retained element: the
coordinate resolution may raise (shapely); after it, a row is emitted only
`if lat and lon:` — Python truthiness, so `None` and `0` both fail. -/
noncomputable def feature_emit_v1 (e : OsmElement) : Except String (Option ReportRow) := do
  let c ← resolve_coordinate_v1 e
  Except.ok (match c with
    | (some la, some lo) =>
      if la != 0 && lo != 0 then some (feature_row_v1 e la lo) else none
    | _ => none)

/-- The v1 feature-emission loop over the retained elements, in order; a
raised exception aborts the rest of the loop (and the run). -/
noncomputable def feature_rows_loop_v1 : List OsmElement → Except String (List ReportRow)
  | [] => Except.ok []
  | e :: es => do
    let r ← feature_emit_v1 e
    let rest ← feature_rows_loop_v1 es
    Except.ok (match r with | some row => row :: rest | none => rest)

/-- The v1 rows of the retained features. -/
noncomputable def feature_rows_v1 (es : List OsmElement) : Except String (List ReportRow) :=
  feature_rows_loop_v1 (filtered_osm_features es)

/-- The v1 nearby-features section: `if filtered_osm_features:` the guarded
per-element rows (possibly none at all), else the placeholder row. -/
noncomputable def feature_section_v1 (es : List OsmElement) : Except String (List ReportRow) :=
  if (filtered_osm_features es).isEmpty then Except.ok [featPlaceholder]
  else feature_rows_v1 es

/-- Does an element pass the v1 coordinate resolution (without raising) and
the truthiness test of the emission loop? -/
def resolvedNonzeroV1 (e : OsmElement) : Bool :=
  match resolve_coordinate_v1 e with
  | Except.ok (some la, some lo) => la != 0 && lo != 0
  | _ => false

/-- The v1 map-viewer URL for the admin row. -/
def adminUrlV1 : String :=
  "https://www.openstreetmap.org/?mlat=" ++ toString center_lat_v1 ++ "&mlon="
    ++ toString center_lon_v1 ++ "#map=10/" ++ toString center_lat_v1 ++ "/"
    ++ toString center_lon_v1

/-- The single v1 administrative row: display name, center coordinates,
distance `0`, map-viewer URL. -/
noncomputable def admin_row_v1 (n : String) : ReportRow :=
  { source := "OSM", name := n, lat := some center_lat_v1,
    lon := some center_lon_v1, dist := some 0, url := some adminUrlV1 }

/-- The v1 administrative section: textually the same access pattern as v3
(`osm_admin_data["display_name"]` behind `if osm_admin_data:`). -/
noncomputable def admin_section_v1 (a : Option TagDict) : Except String (List ReportRow) :=
  match a with
  | some d =>
    if d.isEmpty then Except.ok [adminPlaceholder]
    else
      match tagGet d displayNameKey with
      | some n => Except.ok [admin_row_v1 n]
      | none => Except.error ("KeyError: display_name")
  | none => Except.ok [adminPlaceholder]

/-- The whole v1 `csv_data`: Wikipedia rows (pure in v1), then the
administrative row, then the nearby-features rows, any raised exception
propagating (the admin section is built before the feature loop runs). -/
noncomputable def csv_data_v1 (wikiResults : List Place) (adminData : Option TagDict)
    (featuresData : List OsmElement) : Except String (List ReportRow) := do
  let ar ← admin_section_v1 adminData
  let fr ← feature_section_v1 featuresData
  Except.ok (wiki_section_v1 wikiResults ++ ar ++ fr)

/-- Is an element's geometry safe for v1's shapely centroid: not a way, or a
way with an empty geometry (short-circuited before shapely) or at least three
vertices? -/
def wayGeomGood (e : OsmElement) : Bool :=
  !(e.type == "way") || (e.geometry.isEmpty || decide (3 ≤ e.geometry.length))

/-! ## Theorems -/

/-- Inversion of a successful `Except` bind. -/
lemma bind_eq_ok {ε α β : Type} {x : Except ε α} {f : α → Except ε β} {b : β}
    (h : x >>= f = Except.ok b) : ∃ a, x = Except.ok a ∧ f a = Except.ok b := by
  cases x with
  | error e => cases h
  | ok a => exact ⟨a, rfl, h⟩

/-- C9: for the way with vertices `[(lat 1, lon 1), (lat 1, lon 3),
(lat 3, lon 2)]`, the v3 centroid (arithmetic vertex mean) and the v1 centroid
(geometric area centroid via shapely) both resolve the representative
coordinate `(5/3, 2)`. -/
theorem C9_centroid_agreement :
    calculate_centroid_v3 [⟨1, 1⟩, ⟨1, 3⟩, ⟨3, 2⟩] = (some (5/3), some 2) ∧
    calculate_centroid_v1 [⟨1, 1⟩, ⟨1, 3⟩, ⟨3, 2⟩] = Except.ok (some (5/3), some 2) := by
  constructor
  · norm_num [calculate_centroid_v3]
  · norm_num [calculate_centroid_v1, polygonCentroid]

/-- A 429 (rate-limited) Overpass response. -/
def resp429 : HttpJsonResp (Option (List OsmElement)) := ⟨429, none⟩

/-- A 200 Overpass response whose JSON has an empty `elements` array. -/
def resp200empty : HttpJsonResp (Option (List OsmElement)) := ⟨200, some []⟩

/-- C3 (counterexample): when the first retry is rate-limited again, the
nearby-features client issues a third request — three requests in total, i.e.
more than the single retry the claim allows. -/
theorem C3_counterexample :
    get_osm_nearby_features [resp429, resp429, resp200empty] = (some (some []), 3) ∧
    ¬ (get_osm_nearby_features [resp429, resp429, resp200empty]).2 ≤ 2 :=
  ⟨by decide, by decide⟩

/-- Unfolding of the nearby-features client on a leading 429 response. -/
lemma get_osm_nearby_features_cons429
    (rest : List (HttpJsonResp (Option (List OsmElement)))) :
    get_osm_nearby_features (⟨429, none⟩ :: rest) =
      ((get_osm_nearby_features rest).1, (get_osm_nearby_features rest).2 + 1) := by
  simp [get_osm_nearby_features]

/-- C3 (amended): each 429 response triggers one pause-and-retry, recursively:
after `k` consecutive 429 responses followed by a non-429 response, the client
has issued `k + 1` requests and returns the JSON of the final response when it
is a 200, absent otherwise.  The other clients issue exactly one request per
call by construction (they are non-recursive), so 429 on this client is the
only retried condition. -/
theorem C3_retry_until_non_429 :
    ∀ (k : Nat) (r : HttpJsonResp (Option (List OsmElement)))
      (rest : List (HttpJsonResp (Option (List OsmElement)))),
      r.status ≠ 429 →
      get_osm_nearby_features (List.replicate k ⟨429, none⟩ ++ r :: rest) =
        (if r.status = 200 then (some r.body, k + 1) else (none, k + 1)) := by
  intro k
  induction k with
  | zero =>
    intro r rest h
    by_cases h200 : r.status = 200
    · simp [get_osm_nearby_features, h200]
    · simp [get_osm_nearby_features, h200, h]
  | succ n ih =>
    intro r rest h
    rw [List.replicate_succ, List.cons_append, get_osm_nearby_features_cons429,
      ih r rest h]
    by_cases h200 : r.status = 200 <;> simp [h200]

/-- Witness for `C3_retry_until_non_429` at one 429 followed by a 200. -/
theorem C3_retry_witness :
    resp200empty.status ≠ 429 ∧
    get_osm_nearby_features (List.replicate 1 ⟨429, none⟩ ++ resp200empty :: []) =
      (if resp200empty.status = 200 then (some resp200empty.body, 1 + 1)
        else (none, 1 + 1)) :=
  ⟨by decide, C3_retry_until_non_429 1 resp200empty [] (by decide)⟩

/-- C8: on every non-success, non-429 HTTP status, each client returns an
empty or absent result and no exception propagates (the `Except`-typed clients
return `Except.ok`, the others are total by type). -/
theorem C8_non_success_is_empty_result :
    ∀ (st : Nat) (gb : Option (List Place)) (ab : TagDict)
      (fb : Option (List OsmElement)) (ub : Option (List UrlPage)),
      st ≠ 200 → st ≠ 429 →
      get_wikipedia_geosearch_v1 ⟨st, gb⟩ = Except.ok [] ∧
      get_wikipedia_geosearch_v3 ⟨st, gb⟩ = none ∧
      get_osm_administrative_info ⟨st, ab⟩ = none ∧
      get_osm_nearby_features [⟨st, fb⟩] = (none, 1) ∧
      get_wikipedia_url_v3 ⟨st, ub⟩ = Except.ok none := by
  intro st gb ab fb ub h200 h429
  refine ⟨?_, ?_, ?_, ?_, ?_⟩ <;>
    simp [get_wikipedia_geosearch_v1, get_wikipedia_geosearch_v3,
      get_osm_administrative_info, get_osm_nearby_features,
      get_wikipedia_url_v3, h200, h429]

/-- Witness for `C8_non_success_is_empty_result` at HTTP 500. -/
theorem C8_witness :
    ((500 : Nat) ≠ 200) ∧ ((500 : Nat) ≠ 429) ∧
    (get_wikipedia_geosearch_v1 ⟨500, none⟩ = Except.ok [] ∧
      get_wikipedia_geosearch_v3 ⟨500, none⟩ = none ∧
      get_osm_administrative_info ⟨500, []⟩ = none ∧
      get_osm_nearby_features [⟨500, none⟩] = (none, 1) ∧
      get_wikipedia_url_v3 ⟨500, none⟩ = Except.ok none) :=
  ⟨by decide, by decide,
    C8_non_success_is_empty_result 500 none [] none none (by decide) (by decide)⟩

/-- A named Overpass node that sits exactly on the equator (latitude `0`):
its coordinate resolves, but Python's `if lat and lon:` treats `0` as falsy. -/
def zeroLatNode : OsmElement :=
  { type := "node", id := 1, lat := 0, lon := 5, geometry := [],
    tags := some [(nameKey, "Zero Island")] }

/-- C6 (counterexample): `zeroLatNode` carries a non-empty name tag and its
representative coordinate resolves to `(0, 5)`, yet no row is emitted for it —
the truthiness test `if lat and lon:` drops latitude `0`. -/
theorem C6_counterexample :
    hasNameTag zeroLatNode = true ∧
    resolve_coordinate_v3 zeroLatNode = (some 0, some 5) ∧
    feature_rows_v3 [zeroLatNode] = [] ∧
    resolve_coordinate_v1 zeroLatNode = Except.ok (some 0, some 5) ∧
    feature_rows_v1 [zeroLatNode] = Except.ok [] :=
  ⟨by decide, by decide, rfl, rfl, rfl⟩

/-- The emission body, rephrased through `resolvedNonzero`. -/
lemma feature_emit_v3_eq (e : OsmElement) :
    feature_emit_v3 e =
      if resolvedNonzero e then
        some (feature_row_v3 e ((resolve_coordinate_v3 e).1.getD 0)
          ((resolve_coordinate_v3 e).2.getD 0))
      else none := by
  unfold feature_emit_v3 resolvedNonzero
  rcases hr : resolve_coordinate_v3 e with ⟨ola, olo⟩
  cases ola <;> cases olo <;> simp only [hr] <;> rfl

/-- `filterMap` of a guarded emission over a `filter` is a `map` over the
conjoined filter. -/
lemma filterMap_ite_over_filter {α β : Type} (p q : α → Bool) (row : α → β)
    (l : List α) :
    (l.filter p).filterMap (fun a => if q a then some (row a) else none) =
      (l.filter (fun a => p a && q a)).map row := by
  induction l with
  | nil => rfl
  | cons a l ih =>
    rw [List.filter_cons, List.filter_cons]
    by_cases hp : p a
    · by_cases hq : q a <;> simp [hp, hq, List.filterMap_cons, ih]
    · simp [hp, List.filterMap_cons, ih]

/-- The v1 emission body, named through `resolvedNonzeroV1`, when it does not
raise. -/
lemma feature_emit_v1_name (e : OsmElement) (r : Option ReportRow)
    (h : feature_emit_v1 e = Except.ok r) :
    r.map ReportRow.name =
      if resolvedNonzeroV1 e then some (elementName e) else none := by
  unfold feature_emit_v1 at h
  obtain ⟨c, hc, h⟩ := bind_eq_ok h
  cases h
  unfold resolvedNonzeroV1
  rw [hc]
  rcases c with ⟨_ | la, _ | lo⟩
  · rfl
  · rfl
  · rfl
  · dsimp only
    split <;> rfl

/-- The v1 emission loop's output names, for completed runs over any retained
list: exactly the elements passing the coordinate test, in order. -/
lemma feature_rows_loop_v1_names :
    ∀ (l : List OsmElement) (rows : List ReportRow),
      feature_rows_loop_v1 l = Except.ok rows →
      rows.map ReportRow.name = (l.filter resolvedNonzeroV1).map elementName := by
  intro l
  induction l with
  | nil =>
    intro rows h
    cases h
    rfl
  | cons e l ih =>
    intro rows h
    rw [feature_rows_loop_v1] at h
    obtain ⟨r, hr, h⟩ := bind_eq_ok h
    obtain ⟨rest, hrest, h⟩ := bind_eq_ok h
    cases h
    have hname := feature_emit_v1_name e r hr
    have hih := ih rest hrest
    rcases r with _ | row
    · have hrz : resolvedNonzeroV1 e = false := by
        cases hrzv : resolvedNonzeroV1 e
        · rfl
        · rw [hrzv] at hname
          simp at hname
      show rest.map ReportRow.name =
        ((e :: l).filter resolvedNonzeroV1).map elementName
      rw [List.filter_cons, if_neg (by simp [hrz])]
      exact hih
    · have hrz : resolvedNonzeroV1 e = true := by
        cases hrzv : resolvedNonzeroV1 e
        · rw [hrzv] at hname
          simp at hname
        · rfl
      have hrow : row.name = elementName e := by
        simpa [hrz] using hname
      show (row :: rest).map ReportRow.name =
        ((e :: l).filter resolvedNonzeroV1).map elementName
      rw [List.filter_cons, if_pos hrz, List.map_cons, List.map_cons, hrow, hih]

/-- The v1 emitted names over a raw element list: name filter first, then the
coordinate test (helper shared by the C6 and C10 developments). -/
lemma feature_rows_v1_names (es : List OsmElement) (rows : List ReportRow)
    (h : feature_rows_v1 es = Except.ok rows) :
    rows.map ReportRow.name =
      (es.filter (fun e => hasNameTag e && resolvedNonzeroV1 e)).map elementName := by
  unfold feature_rows_v1 filtered_osm_features at h
  rw [feature_rows_loop_v1_names (es.filter hasNameTag) rows h,
    List.filter_filter]
  congr 1
  exact List.filter_congr (fun a _ => by rw [Bool.and_comm])

/-- C6 (amended): in both variants the emitted feature rows are, in order,
exactly the elements that carry a non-empty name tag AND whose resolved
representative coordinate passes the Python truthiness test (both components
present and nonzero) — for v1 on runs that complete (a named way with one or
two geometry vertices instead raises, aborting the run: see C7).  In
particular an element without a non-empty name tag never appears, and a named
element whose resolved latitude or longitude is `0` is also dropped. -/
theorem C6_emitted_features_characterization :
    (∀ es : List OsmElement,
      (feature_rows_v3 es).map ReportRow.name =
        (es.filter (fun e => hasNameTag e && resolvedNonzero e)).map elementName) ∧
    (∀ (es : List OsmElement) (rows : List ReportRow),
      feature_rows_v1 es = Except.ok rows →
      rows.map ReportRow.name =
        (es.filter (fun e => hasNameTag e && resolvedNonzeroV1 e)).map
          elementName) := by
  constructor
  · intro es
    unfold feature_rows_v3 filtered_osm_features
    rw [funext feature_emit_v3_eq,
      filterMap_ite_over_filter hasNameTag resolvedNonzero _ es, List.map_map]
    rfl
  · exact feature_rows_v1_names

/-- Witness for `C6_emitted_features_characterization` (v1 conjunct) at the
equator node. -/
theorem C6_witness :
    feature_rows_v1 [zeroLatNode] = Except.ok [] ∧
    ([] : List ReportRow).map ReportRow.name =
      ([zeroLatNode].filter
        (fun e => hasNameTag e && resolvedNonzeroV1 e)).map elementName :=
  ⟨rfl, C6_emitted_features_characterization.2 [zeroLatNode] [] rfl⟩

/-- Is a v3 URL-resolution response shaped so that `get_wikipedia_url` does not
raise: any non-200 status, or a 200 whose first page carries `fullurl`? -/
def urlRespGood (r : HttpJsonResp (Option (List UrlPage))) : Bool :=
  if r.status = 200 then
    match r.body with
    | some (p :: _) => p.fullurl.isSome
    | _ => false
  else true

/-- Is an admin-cache value shaped so that the v3 report builder does not
raise: absent, falsy, or carrying `display_name`? -/
def adminDataGood (a : Option TagDict) : Bool :=
  match a with
  | some d => d.isEmpty || (tagGet d displayNameKey).isSome
  | none => true

/-- A well-shaped response never makes `get_wikipedia_url` raise. -/
lemma get_wikipedia_url_v3_of_good (r : HttpJsonResp (Option (List UrlPage)))
    (h : urlRespGood r = true) : ∃ u, get_wikipedia_url_v3 r = Except.ok u := by
  by_cases h200 : r.status = 200
  · unfold urlRespGood at h
    rw [if_pos h200] at h
    cases hb : r.body with
    | none => rw [hb] at h; cases h
    | some l =>
      cases l with
      | nil => rw [hb] at h; cases h
      | cons p ps =>
        rw [hb] at h
        obtain ⟨u, hu⟩ := Option.isSome_iff_exists.mp h
        exact ⟨some u, by simp [get_wikipedia_url_v3, h200, hb, hu]⟩
  · exact ⟨none, by simp [get_wikipedia_url_v3, h200]⟩

/-- With well-shaped URL responses the v3 Wikipedia row loop completes. -/
lemma wiki_rows_v3_of_good (o : String → HttpJsonResp (Option (List UrlPage)))
    (ho : ∀ t, urlRespGood (o t) = true) :
    ∀ ps : List Place, ∃ rows, wiki_rows_v3 o ps = Except.ok rows := by
  intro ps
  induction ps with
  | nil => exact ⟨[], rfl⟩
  | cons p ps ih =>
    obtain ⟨u, hu⟩ := get_wikipedia_url_v3_of_good (o p.title) (ho p.title)
    obtain ⟨rows, hrows⟩ := ih
    refine ⟨wiki_row_v3 p u :: rows, ?_⟩
    simp only [wiki_rows_v3, hu, hrows]
    rfl

/-- A well-shaped admin-cache value never makes the admin section raise. -/
lemma admin_section_v3_of_good (a : Option TagDict) (h : adminDataGood a = true) :
    ∃ rows, admin_section_v3 a = Except.ok rows := by
  cases a with
  | none => exact ⟨[adminPlaceholder], rfl⟩
  | some d =>
    have h2 : (d.isEmpty || (tagGet d displayNameKey).isSome) = true := h
    by_cases he : d.isEmpty
    · exact ⟨[adminPlaceholder], by simp [admin_section_v3, he]⟩
    · have hne : d.isEmpty = false := by simpa using he
      rw [hne, Bool.false_or] at h2
      obtain ⟨n, hn⟩ := Option.isSome_iff_exists.mp h2
      exact ⟨[admin_row_v3 n], by simp [admin_section_v3, he, hn]⟩

/-- A geometry-safe element never makes the v1 coordinate resolution raise. -/
lemma resolve_coordinate_v1_of_good (e : OsmElement) (h : wayGeomGood e = true) :
    ∃ c, resolve_coordinate_v1 e = Except.ok c := by
  unfold resolve_coordinate_v1
  by_cases hn : (e.type == "node") = true
  · rw [if_pos hn]
    exact ⟨_, rfl⟩
  · rw [if_neg hn]
    by_cases hw : (e.type == "way") = true
    · rw [if_pos hw]
      unfold wayGeomGood at h
      rw [hw] at h
      simp only [Bool.not_true, Bool.false_or] at h
      unfold calculate_centroid_v1
      by_cases hg : e.geometry.isEmpty = true
      · rw [if_pos hg]
        exact ⟨_, rfl⟩
      · rw [if_neg hg]
        have h3 : ¬ e.geometry.length < 3 := by
          rw [Bool.or_eq_true] at h
          rcases h with h | h
          · exact absurd h hg
          · have := of_decide_eq_true h
            omega
        rw [if_neg h3]
        exact ⟨_, rfl⟩
    · rw [if_neg hw]
      exact ⟨_, rfl⟩

/-- A geometry-safe element's v1 emission never raises. -/
lemma feature_emit_v1_of_good (e : OsmElement) (h : wayGeomGood e = true) :
    ∃ r, feature_emit_v1 e = Except.ok r := by
  obtain ⟨c, hc⟩ := resolve_coordinate_v1_of_good e h
  unfold feature_emit_v1
  rw [hc]
  exact ⟨_, rfl⟩

/-- The v1 emission loop completes on geometry-safe retained elements. -/
lemma feature_rows_loop_v1_of_good :
    ∀ l : List OsmElement, (∀ e ∈ l, wayGeomGood e = true) →
      ∃ rows, feature_rows_loop_v1 l = Except.ok rows := by
  intro l
  induction l with
  | nil => exact fun _ => ⟨[], rfl⟩
  | cons e l ih =>
    intro h
    obtain ⟨r, hr⟩ := feature_emit_v1_of_good e (h e (List.mem_cons_self e l))
    obtain ⟨rest, hrest⟩ := ih (fun x hx => h x (List.mem_cons_of_mem e hx))
    simp only [feature_rows_loop_v1, hr, hrest]
    exact ⟨_, rfl⟩

/-- The v1 features section completes on geometry-safe retained elements. -/
lemma feature_section_v1_of_good (f : List OsmElement)
    (h : ∀ e ∈ filtered_osm_features f, wayGeomGood e = true) :
    ∃ rows, feature_section_v1 f = Except.ok rows := by
  unfold feature_section_v1
  split
  · exact ⟨[featPlaceholder], rfl⟩
  · exact feature_rows_loop_v1_of_good (filtered_osm_features f) h

/-- A well-shaped admin-cache value never makes the v1 admin section raise. -/
lemma admin_section_v1_of_good (a : Option TagDict) (h : adminDataGood a = true) :
    ∃ rows, admin_section_v1 a = Except.ok rows := by
  cases a with
  | none => exact ⟨[adminPlaceholder], rfl⟩
  | some d =>
    have h2 : (d.isEmpty || (tagGet d displayNameKey).isSome) = true := h
    by_cases he : d.isEmpty
    · exact ⟨[adminPlaceholder], by simp [admin_section_v1, he]⟩
    · have hne : d.isEmpty = false := by simpa using he
      rw [hne, Bool.false_or] at h2
      obtain ⟨n, hn⟩ := Option.isSome_iff_exists.mp h2
      exact ⟨[admin_row_v1 n], by simp [admin_section_v1, he, hn]⟩

/-- C7 (amended): the HTTP-status failure taxonomy is non-fatal (see C8), and
both variants' runs complete and produce the CSV rows whenever their
200-status payloads are well shaped — for v3, every URL-resolution response
carries `fullurl` when it is a 200 and the cached admin value is well shaped;
for v1, the admin value is well shaped and every retained way geometry is safe
for shapely (empty or at least three vertices).  This is not unconditional:
see the counterexample, where a v3 page record without `fullurl` raises
`KeyError` and a v1 short way geometry raises `ValueError`. -/
theorem C7_completes_on_wellformed_responses :
    (∀ (o : String → HttpJsonResp (Option (List UrlPage))) (w : List Place)
      (a : Option TagDict) (f : List OsmElement),
      (∀ t, urlRespGood (o t) = true) → adminDataGood a = true →
      ∃ rows, csv_data_v3 o w a f = Except.ok rows) ∧
    (∀ (w : List Place) (a : Option TagDict) (f : List OsmElement),
      adminDataGood a = true →
      (∀ e ∈ filtered_osm_features f, wayGeomGood e = true) →
      ∃ rows, csv_data_v1 w a f = Except.ok rows) := by
  constructor
  · intro o w a f ho ha
    have hw : ∃ ws, wiki_section_v3 o w = Except.ok ws := by
      unfold wiki_section_v3
      split
      · exact wiki_rows_v3_of_good o ho (w.take max_results)
      · exact ⟨[wikiPlaceholder], rfl⟩
    obtain ⟨ws, hws⟩ := hw
    obtain ⟨ar, har⟩ := admin_section_v3_of_good a ha
    refine ⟨ws ++ ar ++ feature_section_v3 f, ?_⟩
    simp only [csv_data_v3, hws, har]
    rfl
  · intro w a f ha hf
    obtain ⟨ar, har⟩ := admin_section_v1_of_good a ha
    obtain ⟨fr, hfr⟩ := feature_section_v1_of_good f hf
    refine ⟨wiki_section_v1 w ++ ar ++ fr, ?_⟩
    simp only [csv_data_v1, har, hfr]
    rfl

/-- A URL-resolution oracle answering 404 to every title (well shaped:
`get_wikipedia_url` returns `None` without raising). -/
def notFoundUrlOracle : String → HttpJsonResp (Option (List UrlPage)) :=
  fun _ => ⟨404, none⟩

/-- A sample retained geosearch place. -/
def whPlace : Place := ⟨"The White House", 38.8977, -77.0365⟩

/-- Witness for `C7_completes_on_wellformed_responses` (both conjuncts). -/
theorem C7_witness :
    ((∀ t, urlRespGood (notFoundUrlOracle t) = true) ∧
      adminDataGood none = true ∧
      ∃ rows, csv_data_v3 notFoundUrlOracle [whPlace] none [] =
        Except.ok rows) ∧
    (adminDataGood none = true ∧
      (∀ e ∈ filtered_osm_features [zeroLatNode], wayGeomGood e = true) ∧
      ∃ rows, csv_data_v1 [whPlace] none [zeroLatNode] = Except.ok rows) :=
  ⟨⟨fun _ => rfl, rfl,
    C7_completes_on_wellformed_responses.1 notFoundUrlOracle [whPlace] none []
      (fun _ => rfl) rfl⟩,
   ⟨rfl, by decide,
    C7_completes_on_wellformed_responses.2 [whPlace] none [zeroLatNode] rfl
      (by decide)⟩⟩

/-- A URL-resolution oracle whose 200 response lacks the `fullurl` field. -/
def missingFullurlOracle : String → HttpJsonResp (Option (List UrlPage)) :=
  fun _ => ⟨200, some [⟨none⟩]⟩

/-- A named way whose geometry has a single vertex: shapely's `Polygon`
constructor rejects it. -/
def shortWay : OsmElement :=
  { type := "way", id := 7, lat := 0, lon := 0, geometry := [⟨1, 1⟩],
    tags := some [(nameKey, "Stub Hall")] }

/-- C7 (counterexample): in v3, with one retained Wikipedia result and a 200
URL-resolution response whose page record has no `fullurl` key, the report
builder raises `KeyError`; in v1, a retained single-vertex way makes the
shapely centroid raise `ValueError` — either run aborts instead of completing
with a CSV. -/
theorem C7_counterexample :
    csv_data_v3 missingFullurlOracle [whPlace] none [] =
      Except.error ("KeyError: fullurl") ∧
    csv_data_v1 [] none [shortWay] =
      Except.error ("ValueError: LinearRing") :=
  ⟨rfl, rfl⟩

/-- The Wikipedia row loop yields one row per place, all with source
`"Wikipedia"`. -/
lemma wiki_rows_v3_ok_shape (o : String → HttpJsonResp (Option (List UrlPage))) :
    ∀ (ps : List Place) (rows : List ReportRow),
      wiki_rows_v3 o ps = Except.ok rows →
      rows.length = ps.length ∧ ∀ r ∈ rows, r.source = "Wikipedia" := by
  intro ps
  induction ps with
  | nil =>
    intro rows h
    have : rows = [] := by simpa [wiki_rows_v3] using h.symm
    subst this
    simp
  | cons p ps ih =>
    intro rows h
    rw [wiki_rows_v3] at h
    obtain ⟨u, hu, h⟩ := bind_eq_ok h
    obtain ⟨rows0, hr, h⟩ := bind_eq_ok h
    cases h
    obtain ⟨hlen, hsrc⟩ := ih rows0 hr
    constructor
    · simp [hlen]
    · intro r hmem
      rcases List.mem_cons.mp hmem with h1 | h1
      · subst h1
        rfl
      · exact hsrc r h1

/-- The v3 Wikipedia section never completes with zero rows and every row is a
Wikipedia row. -/
lemma wiki_section_v3_ok_shape (o : String → HttpJsonResp (Option (List UrlPage)))
    (w : List Place) (rows : List ReportRow)
    (h : wiki_section_v3 o w = Except.ok rows) :
    1 ≤ rows.length ∧ ∀ r ∈ rows, r.source = "Wikipedia" := by
  unfold wiki_section_v3 at h
  split at h
  · obtain ⟨hlen, hsrc⟩ := wiki_rows_v3_ok_shape o (w.take max_results) rows h
    refine ⟨?_, hsrc⟩
    rw [hlen, List.length_take]
    have h1 : 1 ≤ w.length := by assumption
    have h2 : 1 ≤ max_results := by decide
    exact le_min h2 h1
  · have : rows = [wikiPlaceholder] := by
      cases h
      rfl
    subst this
    exact ⟨by decide, by intro r hmem; simp at hmem; subst hmem; rfl⟩

/-- The v3 administrative section always completes with exactly one OSM row. -/
lemma admin_section_v3_ok_shape (a : Option TagDict) (rows : List ReportRow)
    (h : admin_section_v3 a = Except.ok rows) :
    rows.length = 1 ∧ ∀ r ∈ rows, r.source = "OSM" := by
  have hset : rows = [adminPlaceholder] ∨ ∃ n, rows = [admin_row_v3 n] := by
    cases a with
    | none =>
      left
      cases h
      rfl
    | some d =>
      simp only [admin_section_v3] at h
      by_cases he : d.isEmpty
      · left
        rw [if_pos he] at h
        cases h
        rfl
      · rw [if_neg he] at h
        cases hn : tagGet d displayNameKey with
        | none => rw [hn] at h; cases h
        | some n =>
          right
          refine ⟨n, ?_⟩
          rw [hn] at h
          cases h
          rfl
  rcases hset with h1 | ⟨n, h1⟩ <;> subst h1
  · exact ⟨rfl, by intro r hmem; simp at hmem; subst hmem; rfl⟩
  · exact ⟨rfl, by intro r hmem; simp at hmem; subst hmem; rfl⟩

/-- An emitted feature row has source `"OSM"`. -/
lemma feature_emit_v3_source (e : OsmElement) (r : ReportRow)
    (h : feature_emit_v3 e = some r) : r.source = "OSM" := by
  rw [feature_emit_v3_eq] at h
  split at h
  · cases h
    rfl
  · cases h

/-- No emission: exactly when the resolved coordinate fails the truthiness
test. -/
lemma feature_emit_v3_eq_none (e : OsmElement) :
    feature_emit_v3 e = none ↔ resolvedNonzero e = false := by
  rw [feature_emit_v3_eq]
  cases hrz : resolvedNonzero e <;> simp

/-- Every row of the v3 nearby-features section has source `"OSM"`. -/
lemma feature_section_v3_sources (f : List OsmElement) :
    ∀ r ∈ feature_section_v3 f, r.source = "OSM" := by
  intro r hmem
  unfold feature_section_v3 at hmem
  split at hmem
  · simp at hmem
    subst hmem
    rfl
  · unfold feature_rows_v3 at hmem
    obtain ⟨e, _, hemit⟩ := List.mem_filterMap.mp hmem
    exact feature_emit_v3_source e r hemit

/-- The v3 nearby-features section is empty exactly when some element passes
the name filter but every such element fails the coordinate truthiness test
(when no element passes the name filter a placeholder row is emitted instead). -/
lemma feature_section_v3_empty_iff (f : List OsmElement) :
    feature_section_v3 f = [] ↔
      filtered_osm_features f ≠ [] ∧
        ∀ e ∈ filtered_osm_features f, resolvedNonzero e = false := by
  unfold feature_section_v3
  by_cases he : (filtered_osm_features f).isEmpty
  · rw [if_pos he]
    have hnil : filtered_osm_features f = [] := List.isEmpty_iff.mp he
    simp [hnil]
  · rw [if_neg he]
    have hne : filtered_osm_features f ≠ [] := by
      intro hnil
      rw [hnil] at he
      exact he rfl
    unfold feature_rows_v3
    rw [List.filterMap_eq_nil_iff]
    constructor
    · intro h
      exact ⟨hne, fun e hmem => (feature_emit_v3_eq_none e).mp (h e hmem)⟩
    · intro h e hmem
      exact (feature_emit_v3_eq_none e).mpr (h.2 e hmem)

/-- The v1 Wikipedia section never has zero rows and every row is a
Wikipedia row. -/
lemma wiki_section_v1_shape (w : List Place) :
    1 ≤ (wiki_section_v1 w).length ∧
      ∀ r ∈ wiki_section_v1 w, r.source = "Wikipedia" := by
  unfold wiki_section_v1
  by_cases he : w.isEmpty
  · rw [if_pos he]
    exact ⟨by decide, by intro r hmem; simp at hmem; subst hmem; rfl⟩
  · rw [if_neg he]
    constructor
    · rw [List.length_map, List.length_take]
      have h1 : w ≠ [] := fun hnil => he (by simp [hnil])
      have h2 : 1 ≤ w.length := List.length_pos.mpr h1
      have h3 : 1 ≤ max_results := by decide
      exact le_min h3 h2
    · intro r hmem
      obtain ⟨p, _, hp⟩ := List.mem_map.mp hmem
      rw [← hp]

/-- The v1 administrative section always completes with exactly one OSM row. -/
lemma admin_section_v1_ok_shape (a : Option TagDict) (rows : List ReportRow)
    (h : admin_section_v1 a = Except.ok rows) :
    rows.length = 1 ∧ ∀ r ∈ rows, r.source = "OSM" := by
  have hset : rows = [adminPlaceholder] ∨ ∃ n, rows = [admin_row_v1 n] := by
    cases a with
    | none =>
      left
      cases h
      rfl
    | some d =>
      simp only [admin_section_v1] at h
      by_cases he : d.isEmpty
      · left
        rw [if_pos he] at h
        cases h
        rfl
      · rw [if_neg he] at h
        cases hn : tagGet d displayNameKey with
        | none => rw [hn] at h; cases h
        | some n =>
          right
          refine ⟨n, ?_⟩
          rw [hn] at h
          cases h
          rfl
  rcases hset with h1 | ⟨n, h1⟩ <;> subst h1
  · exact ⟨rfl, by intro r hmem; simp at hmem; subst hmem; rfl⟩
  · exact ⟨rfl, by intro r hmem; simp at hmem; subst hmem; rfl⟩

/-- An emitted v1 feature row has source `"OSM"`. -/
lemma feature_emit_v1_source (e : OsmElement) (row : ReportRow)
    (h : feature_emit_v1 e = Except.ok (some row)) : row.source = "OSM" := by
  unfold feature_emit_v1 at h
  obtain ⟨c, hc, h⟩ := bind_eq_ok h
  have h2 := Except.ok.inj h
  rcases c with ⟨_ | la, _ | lo⟩ <;> dsimp only at h2
  · cases h2
  · cases h2
  · cases h2
  · split at h2
    · cases h2
      rfl
    · cases h2

/-- Every row of a completed v1 emission loop has source `"OSM"`. -/
lemma feature_rows_loop_v1_sources :
    ∀ (l : List OsmElement) (rows : List ReportRow),
      feature_rows_loop_v1 l = Except.ok rows →
      ∀ r ∈ rows, r.source = "OSM" := by
  intro l
  induction l with
  | nil =>
    intro rows h r hmem
    cases h
    exact absurd hmem (List.not_mem_nil r)
  | cons e l ih =>
    intro rows h r hmem
    rw [feature_rows_loop_v1] at h
    obtain ⟨r0, hr0, h⟩ := bind_eq_ok h
    obtain ⟨rest, hrest, h⟩ := bind_eq_ok h
    cases h
    rcases r0 with _ | row
    · exact ih rest hrest r hmem
    · have hmem2 : r ∈ row :: rest := hmem
      rcases List.mem_cons.mp hmem2 with h1 | h1
      · subst h1
        exact feature_emit_v1_source e r hr0
      · exact ih rest hrest r h1

/-- Every row of a completed v1 nearby-features section has source `"OSM"`. -/
lemma feature_section_v1_sources (f : List OsmElement) (rows : List ReportRow)
    (h : feature_section_v1 f = Except.ok rows) :
    ∀ r ∈ rows, r.source = "OSM" := by
  unfold feature_section_v1 at h
  split at h
  · cases h
    intro r hmem
    simp at hmem
    subst hmem
    rfl
  · exact feature_rows_loop_v1_sources (filtered_osm_features f) rows h

/-- The v1 emission loop completes empty exactly when every retained element
is dropped by the coordinate test (without raising). -/
lemma feature_rows_loop_v1_nil_iff :
    ∀ l : List OsmElement,
      feature_rows_loop_v1 l = Except.ok [] ↔
        ∀ e ∈ l, feature_emit_v1 e = Except.ok none := by
  intro l
  induction l with
  | nil => simp [feature_rows_loop_v1]
  | cons e l ih =>
    constructor
    · intro h
      rw [feature_rows_loop_v1] at h
      obtain ⟨r, hr, h⟩ := bind_eq_ok h
      obtain ⟨rest, hrest, h⟩ := bind_eq_ok h
      rcases r with _ | row
      · have h2 : rest = ([] : List ReportRow) := Except.ok.inj h
        intro x hx
        rcases List.mem_cons.mp hx with h1 | h1
        · subst h1
          exact hr
        · exact (ih.mp (by rw [hrest, h2])) x h1
      · have h3 : (row :: rest : List ReportRow) = [] := Except.ok.inj h
        cases h3
    · intro h
      have he : feature_emit_v1 e = Except.ok none :=
        h e (List.mem_cons_self e l)
      have hl : feature_rows_loop_v1 l = Except.ok [] :=
        ih.mpr (fun x hx => h x (List.mem_cons_of_mem e hx))
      simp only [feature_rows_loop_v1, he, hl]
      rfl

/-- The v1 nearby-features section is `ok []` exactly when some element passes
the name filter but every such element is dropped by the coordinate test. -/
lemma feature_section_v1_empty_iff (f : List OsmElement) :
    feature_section_v1 f = Except.ok [] ↔
      filtered_osm_features f ≠ [] ∧
        ∀ e ∈ filtered_osm_features f, feature_emit_v1 e = Except.ok none := by
  unfold feature_section_v1
  by_cases he : (filtered_osm_features f).isEmpty
  · rw [if_pos he]
    have hnil : filtered_osm_features f = [] := List.isEmpty_iff.mp he
    simp [hnil]
  · rw [if_neg he]
    have hne : filtered_osm_features f ≠ [] := by
      intro hnil
      rw [hnil] at he
      exact he rfl
    unfold feature_rows_v1
    rw [feature_rows_loop_v1_nil_iff]
    simp [hne]

/-- C10 (amended): every completed run's CSV data, in both variants, is the
Wikipedia section (at least one row), then exactly one administrative row,
then the nearby-features section; every data row's first field is
`"Wikipedia"` or `"OSM"`.  The nearby-features section contributes at least
one row — a placeholder when nothing passes the name filter — EXCEPT when
some element passes the name filter but every such element fails the Python
coordinate truthiness test, in which case the section is empty and the CSV
can have only two data rows. -/
theorem C10_csv_structure :
    (∀ (o : String → HttpJsonResp (Option (List UrlPage))) (w : List Place)
      (a : Option TagDict) (f : List OsmElement) (rows : List ReportRow),
      csv_data_v3 o w a f = Except.ok rows →
      (∀ r ∈ rows, r.source = "Wikipedia" ∨ r.source = "OSM") ∧
      (∃ wr ar, wiki_section_v3 o w = Except.ok wr ∧
        admin_section_v3 a = Except.ok ar ∧
        rows = wr ++ ar ++ feature_section_v3 f ∧
        1 ≤ wr.length ∧ ar.length = 1) ∧
      (feature_section_v3 f = [] ↔
        filtered_osm_features f ≠ [] ∧
          ∀ e ∈ filtered_osm_features f, resolvedNonzero e = false)) ∧
    (∀ (w : List Place) (a : Option TagDict) (f : List OsmElement)
      (rows : List ReportRow),
      csv_data_v1 w a f = Except.ok rows →
      (∀ r ∈ rows, r.source = "Wikipedia" ∨ r.source = "OSM") ∧
      (∃ ar fr, admin_section_v1 a = Except.ok ar ∧
        feature_section_v1 f = Except.ok fr ∧
        rows = wiki_section_v1 w ++ ar ++ fr ∧
        1 ≤ (wiki_section_v1 w).length ∧ ar.length = 1) ∧
      (feature_section_v1 f = Except.ok [] ↔
        filtered_osm_features f ≠ [] ∧
          ∀ e ∈ filtered_osm_features f,
            feature_emit_v1 e = Except.ok none)) := by
  constructor
  · intro o w a f rows h
    rw [csv_data_v3] at h
    obtain ⟨wr, hws, h⟩ := bind_eq_ok h
    obtain ⟨ar, har, h⟩ := bind_eq_ok h
    cases h
    obtain ⟨hw1, hwsrc⟩ := wiki_section_v3_ok_shape o w wr hws
    obtain ⟨ha1, hasrc⟩ := admin_section_v3_ok_shape a ar har
    refine ⟨?_, ⟨wr, ar, hws, har, rfl, hw1, ha1⟩,
      feature_section_v3_empty_iff f⟩
    intro r hmem
    rcases List.mem_append.mp hmem with h1 | h1
    · rcases List.mem_append.mp h1 with h2 | h2
      · exact Or.inl (hwsrc r h2)
      · exact Or.inr (hasrc r h2)
    · exact Or.inr (feature_section_v3_sources f r h1)
  · intro w a f rows h
    rw [csv_data_v1] at h
    obtain ⟨ar, har, h⟩ := bind_eq_ok h
    obtain ⟨fr, hfr, h⟩ := bind_eq_ok h
    cases h
    obtain ⟨hw1, hwsrc⟩ := wiki_section_v1_shape w
    obtain ⟨ha1, hasrc⟩ := admin_section_v1_ok_shape a ar har
    have hfsrc := feature_section_v1_sources f fr hfr
    refine ⟨?_, ⟨ar, fr, har, hfr, rfl, hw1, ha1⟩,
      feature_section_v1_empty_iff f⟩
    intro r hmem
    rcases List.mem_append.mp hmem with h1 | h1
    · rcases List.mem_append.mp h1 with h2 | h2
      · exact Or.inl (hwsrc r h2)
      · exact Or.inr (hasrc r h2)
    · exact Or.inr (hfsrc r h1)

/-- Witness for `C10_csv_structure` (both conjuncts): the all-placeholder
runs. -/
theorem C10_witness :
    (csv_data_v3 notFoundUrlOracle [] none [] =
      Except.ok [wikiPlaceholder, adminPlaceholder, featPlaceholder] ∧
    ((∀ r ∈ [wikiPlaceholder, adminPlaceholder, featPlaceholder],
        r.source = "Wikipedia" ∨ r.source = "OSM") ∧
      (∃ wr ar, wiki_section_v3 notFoundUrlOracle [] = Except.ok wr ∧
        admin_section_v3 none = Except.ok ar ∧
        [wikiPlaceholder, adminPlaceholder, featPlaceholder] =
          wr ++ ar ++ feature_section_v3 [] ∧
        1 ≤ wr.length ∧ ar.length = 1) ∧
      (feature_section_v3 [] = [] ↔
        filtered_osm_features ([] : List OsmElement) ≠ [] ∧
          ∀ e ∈ filtered_osm_features ([] : List OsmElement),
            resolvedNonzero e = false))) ∧
    (csv_data_v1 [] none [] =
      Except.ok [wikiPlaceholder, adminPlaceholder, featPlaceholder] ∧
    ((∀ r ∈ [wikiPlaceholder, adminPlaceholder, featPlaceholder],
        r.source = "Wikipedia" ∨ r.source = "OSM") ∧
      (∃ ar fr, admin_section_v1 none = Except.ok ar ∧
        feature_section_v1 [] = Except.ok fr ∧
        [wikiPlaceholder, adminPlaceholder, featPlaceholder] =
          wiki_section_v1 [] ++ ar ++ fr ∧
        1 ≤ (wiki_section_v1 ([] : List Place)).length ∧ ar.length = 1) ∧
      (feature_section_v1 [] = Except.ok [] ↔
        filtered_osm_features ([] : List OsmElement) ≠ [] ∧
          ∀ e ∈ filtered_osm_features ([] : List OsmElement),
            feature_emit_v1 e = Except.ok none))) :=
  ⟨⟨rfl, C10_csv_structure.1 notFoundUrlOracle [] none []
      [wikiPlaceholder, adminPlaceholder, featPlaceholder] rfl⟩,
   ⟨rfl, C10_csv_structure.2 [] none []
      [wikiPlaceholder, adminPlaceholder, featPlaceholder] rfl⟩⟩

/-- C10 (counterexample): with no Wikipedia results, no admin data and a single
named node sitting on the equator, both variants' runs complete but the CSV
has only two data rows — the nearby-features group contributes neither a row
nor a placeholder, contradicting the claimed minimum of three data rows. -/
theorem C10_counterexample :
    (csv_data_v3 notFoundUrlOracle [] none [zeroLatNode]).map List.length =
      Except.ok 2 ∧
    (csv_data_v1 [] none [zeroLatNode]).map List.length = Except.ok 2 :=
  ⟨rfl, rfl⟩

/-! ## Loop lemmas -/

/-- The guard, unfolded to a proposition. -/
lemma loopGuard_eq_true (maxR minR : Nat) (s : LoopState) :
    loopGuard maxR minR s = true ↔
      s.currentRadius ≤ maxR ∧ s.wikiResults.length < minR := by
  simp [loopGuard]

/-- A v3 loop whose condition is already false returns its state unchanged. -/
lemma runLoopV3_guard_false (o : Nat → IterRespV3) (maxR minR inc fuel : Nat)
    (s : LoopState) (h : loopGuard maxR minR s = false) :
    runLoopV3 o maxR minR inc fuel s = some s := by
  cases fuel <;> simp [runLoopV3, h]

/-- A v1 loop whose condition is already false returns its state unchanged. -/
lemma runLoopV1_guard_false (o : Nat → IterRespV1) (maxR minR inc fuel : Nat)
    (s : LoopState) (h : loopGuard maxR minR s = false) :
    runLoopV1 o maxR minR inc fuel s = some s := by
  cases fuel <;> simp [runLoopV1, h]

/-- Every branch of the v3 iteration body applies the admin cache guard. -/
lemma stepV3_osmAdminData (minR inc : Nat) (r : IterRespV3) (s : LoopState) :
    (stepV3 minR inc r s).osmAdminData = adminUpdate s.osmAdminData r.admin := rfl

/-- Every branch of the v3 iteration body counts one iteration. -/
lemma stepV3_iterations (minR inc : Nat) (r : IterRespV3) (s : LoopState) :
    (stepV3 minR inc r s).iterations = s.iterations + 1 := rfl

/-- The v3 iteration body either increments the radius by the increment, or
leaves it unchanged — and in the latter case the new result list already meets
the minimum, so the loop condition fails next. -/
lemma stepV3_radius (minR inc : Nat) (r : IterRespV3) (s : LoopState) :
    (stepV3 minR inc r s).currentRadius = s.currentRadius + inc ∨
      ((stepV3 minR inc r s).currentRadius = s.currentRadius ∧
        minR ≤ (stepV3 minR inc r s).wikiResults.length) := by
  show (wikiBranchV3 minR inc r.wiki s).1 = s.currentRadius + inc ∨
    ((wikiBranchV3 minR inc r.wiki s).1 = s.currentRadius ∧
      minR ≤ (wikiBranchV3 minR inc r.wiki s).2.length)
  rcases r.wiki with _ | (_ | l)
  · exact Or.inl rfl
  · exact Or.inl rfl
  · simp only [wikiBranchV3]
    split
    · exact Or.inl rfl
    · split
      · rename_i hm
        exact Or.inr ⟨rfl, hm⟩
      · exact Or.inl rfl

/-- A radius still within bounds admits at least one more iteration. -/
lemma radMeasure_pos_of_le (inc : Nat) {maxR rad : Nat} (h : rad ≤ maxR) :
    1 ≤ radMeasure maxR inc rad := by
  unfold radMeasure
  rw [if_neg (by omega)]
  exact Nat.succ_le_succ (Nat.zero_le _)

/-- Incrementing the radius strictly decreases the measure. -/
lemma radMeasure_incr {inc : Nat} (hinc : 0 < inc) {maxR rad : Nat}
    (h : rad ≤ maxR) :
    radMeasure maxR inc (rad + inc) + 1 ≤ radMeasure maxR inc rad := by
  unfold radMeasure
  rw [if_neg (by omega : ¬ maxR < rad)]
  by_cases h2 : maxR < rad + inc
  · rw [if_pos h2]
    exact Nat.succ_le_succ (Nat.zero_le _)
  · rw [if_neg h2]
    have hle : inc ≤ maxR - rad := by omega
    have heq : maxR - (rad + inc) = maxR - rad - inc := by omega
    rw [heq, Nat.div_eq_sub_div hinc hle]

/-- With a positive increment the v3 loop, given fuel at least the measure of
its radius, reaches a state with a false condition, in at most measure-many
further iterations. -/
lemma runLoopV3_total (o : Nat → IterRespV3) (maxR minR inc : Nat)
    (hinc : 0 < inc) :
    ∀ (fuel : Nat) (s : LoopState), radMeasure maxR inc s.currentRadius ≤ fuel →
      ∃ t, runLoopV3 o maxR minR inc fuel s = some t ∧
        t.iterations ≤ s.iterations + radMeasure maxR inc s.currentRadius := by
  intro fuel
  induction fuel with
  | zero =>
    intro s hm
    have h0 : radMeasure maxR inc s.currentRadius = 0 := Nat.le_zero.mp hm
    have hrad : maxR < s.currentRadius := by
      by_contra hc
      have := radMeasure_pos_of_le inc (by omega : s.currentRadius ≤ maxR)
      omega
    have hguard : loopGuard maxR minR s = false := by
      unfold loopGuard
      simp [Nat.not_le.mpr hrad]
    exact ⟨s, by simp [runLoopV3, hguard], by omega⟩
  | succ n ih =>
    intro s hm
    cases hguard : loopGuard maxR minR s with
    | false =>
      exact ⟨s, runLoopV3_guard_false o maxR minR inc (n + 1) s hguard, by omega⟩
    | true =>
      obtain ⟨hrad, hlen⟩ := (loopGuard_eq_true maxR minR s).mp hguard
      have hone : runLoopV3 o maxR minR inc (n + 1) s =
          runLoopV3 o maxR minR inc n (stepV3 minR inc (o s.iterations) s) := by
        simp [runLoopV3, hguard]
      have hit := stepV3_iterations minR inc (o s.iterations) s
      have hpos := radMeasure_pos_of_le inc hrad
      rcases stepV3_radius minR inc (o s.iterations) s with hR | ⟨hR, hmin⟩
      · have hdec := radMeasure_incr hinc hrad
        rw [← hR] at hdec
        obtain ⟨t, hrun, hiter⟩ :=
          ih (stepV3 minR inc (o s.iterations) s) (by omega)
        refine ⟨t, by rw [hone]; exact hrun, ?_⟩
        rw [hit] at hiter
        omega
      · have hg' : loopGuard maxR minR (stepV3 minR inc (o s.iterations) s) = false := by
          unfold loopGuard
          simp [Nat.not_lt.mpr hmin]
        refine ⟨stepV3 minR inc (o s.iterations) s, ?_, ?_⟩
        · rw [hone]
          exact runLoopV3_guard_false o maxR minR inc n _ hg'
        · omega

/-- With a positive increment the v1 loop, given fuel at least the measure of
its radius, reaches a break or a false condition, in at most measure-many
further iterations. -/
lemma runLoopV1_total (o : Nat → IterRespV1) (maxR minR inc : Nat)
    (hinc : 0 < inc) :
    ∀ (fuel : Nat) (s : LoopState), radMeasure maxR inc s.currentRadius ≤ fuel →
      ∃ t, runLoopV1 o maxR minR inc fuel s = some t ∧
        t.iterations ≤ s.iterations + radMeasure maxR inc s.currentRadius := by
  intro fuel
  induction fuel with
  | zero =>
    intro s hm
    have h0 : radMeasure maxR inc s.currentRadius = 0 := Nat.le_zero.mp hm
    have hrad : maxR < s.currentRadius := by
      by_contra hc
      have := radMeasure_pos_of_le inc (by omega : s.currentRadius ≤ maxR)
      omega
    have hguard : loopGuard maxR minR s = false := by
      unfold loopGuard
      simp [Nat.not_le.mpr hrad]
    exact ⟨s, by simp [runLoopV1, hguard], by omega⟩
  | succ n ih =>
    intro s hm
    cases hguard : loopGuard maxR minR s with
    | false =>
      exact ⟨s, runLoopV1_guard_false o maxR minR inc (n + 1) s hguard, by omega⟩
    | true =>
      obtain ⟨hrad, hlen⟩ := (loopGuard_eq_true maxR minR s).mp hguard
      have hpos := radMeasure_pos_of_le inc hrad
      cases hbr : (!(o s.iterations).wiki.isEmpty &&
          decide (minR ≤ (o s.iterations).wiki.length)) with
      | true =>
        refine ⟨stepV1 (o s.iterations) s, ?_, ?_⟩
        · simp [runLoopV1, hguard, hbr]
        · have : (stepV1 (o s.iterations) s).iterations = s.iterations + 1 := rfl
          omega
      | false =>
        have hone : runLoopV1 o maxR minR inc (n + 1) s =
            runLoopV1 o maxR minR inc n
              { stepV1 (o s.iterations) s with
                currentRadius := (stepV1 (o s.iterations) s).currentRadius + inc } := by
          simp [runLoopV1, hguard, hbr]
        have hdec := radMeasure_incr hinc hrad
        have hradstep :
            ({ stepV1 (o s.iterations) s with
              currentRadius := (stepV1 (o s.iterations) s).currentRadius + inc
              } : LoopState).currentRadius = s.currentRadius + inc := rfl
        obtain ⟨t, hrun, hiter⟩ := ih
          { stepV1 (o s.iterations) s with
            currentRadius := (stepV1 (o s.iterations) s).currentRadius + inc }
          (by rw [hradstep]; omega)
        refine ⟨t, by rw [hone]; exact hrun, ?_⟩
        rw [hradstep] at hiter
        have : ({ stepV1 (o s.iterations) s with
            currentRadius := (stepV1 (o s.iterations) s).currentRadius + inc
            } : LoopState).iterations = s.iterations + 1 := rfl
        omega

/-- The measure of the initial radius is within the spec's iteration bound. -/
lemma radMeasure_le_iterBound {inc : Nat} (hinc : 0 < inc)
    (maxR initR : Nat) :
    radMeasure maxR inc initR ≤ iterBound maxR initR inc := by
  unfold radMeasure iterBound
  by_cases h : maxR < initR
  · rw [if_pos h]
    exact Nat.zero_le _
  · rw [if_neg h]
    have : (maxR - initR) / inc ≤ (maxR - initR + inc - 1) / inc :=
      Nat.div_le_div_right (by omega)
    omega

/-- C2: for every oracle (center point and client behavior) and all radius
bounds with a positive increment, both variants' controller loops terminate
within `ceil((maxRadius - initialRadius) / increment) + 1` iterations
(`iterBound`, with truncated subtraction when the initial radius already
exceeds the maximum): fuel equal to the bound suffices, and the final state
has run at most that many iterations. -/
theorem C2_loop_terminates_within_bound :
    ∀ (o3 : Nat → IterRespV3) (o1 : Nat → IterRespV1)
      (maxR minR inc initR : Nat), 0 < inc →
      (∃ t, runLoopV3 o3 maxR minR inc (iterBound maxR initR inc)
          (initState initR) = some t ∧
        t.iterations ≤ iterBound maxR initR inc) ∧
      (∃ t, runLoopV1 o1 maxR minR inc (iterBound maxR initR inc)
          (initState initR) = some t ∧
        t.iterations ≤ iterBound maxR initR inc) := by
  intro o3 o1 maxR minR inc initR hinc
  have hb := radMeasure_le_iterBound hinc maxR initR
  constructor
  · obtain ⟨t, h1, h2⟩ := runLoopV3_total o3 maxR minR inc hinc
      (iterBound maxR initR inc) (initState initR) hb
    have h2' : t.iterations ≤ 0 + radMeasure maxR inc initR := h2
    exact ⟨t, h1, by omega⟩
  · obtain ⟨t, h1, h2⟩ := runLoopV1_total o1 maxR minR inc hinc
      (iterBound maxR initR inc) (initState initR) hb
    have h2' : t.iterations ≤ 0 + radMeasure maxR inc initR := h2
    exact ⟨t, h1, by omega⟩

/-- An oracle for runs on which every client always fails. -/
def constRespV3 : Nat → IterRespV3 := fun _ => ⟨none, none, none⟩

/-- v1 version of `constRespV3`. -/
def constRespV1 : Nat → IterRespV1 := fun _ => ⟨[], none, none⟩

/-- Witness for `C2_loop_terminates_within_bound` at the programs' constants
(initial radius 500, max 10000, increment 500, min results 5). -/
theorem C2_witness :
    0 < 500 ∧
    ((∃ t, runLoopV3 constRespV3 10000 5 500 (iterBound 10000 500 500)
        (initState 500) = some t ∧
      t.iterations ≤ iterBound 10000 500 500) ∧
     (∃ t, runLoopV1 constRespV1 10000 5 500 (iterBound 10000 500 500)
        (initState 500) = some t ∧
      t.iterations ≤ iterBound 10000 500 500)) :=
  ⟨by decide,
    C2_loop_terminates_within_bound constRespV3 constRespV1 10000 5 500 500
      (by decide)⟩

/-- C1: in both variants, if on an iteration with a true loop condition the
geosearch client returns at least `min_results` results, the loop stops with
that iteration's state — the radius is not increased, and the stored results
are the ones just returned. -/
theorem C1_stop_at_min_results :
    ∀ (o3 : Nat → IterRespV3) (o1 : Nat → IterRespV1)
      (maxR minR inc fuel : Nat) (s : LoopState) (l : List Place),
      (loopGuard maxR minR s = true →
        (o3 s.iterations).wiki = some (some l) → minR ≤ l.length →
        runLoopV3 o3 maxR minR inc (fuel + 1) s =
          some (stepV3 minR inc (o3 s.iterations) s) ∧
        (stepV3 minR inc (o3 s.iterations) s).currentRadius = s.currentRadius ∧
        (stepV3 minR inc (o3 s.iterations) s).wikiResults = l) ∧
      (loopGuard maxR minR s = true → minR ≤ (o1 s.iterations).wiki.length →
        runLoopV1 o1 maxR minR inc (fuel + 1) s =
          some (stepV1 (o1 s.iterations) s) ∧
        (stepV1 (o1 s.iterations) s).currentRadius = s.currentRadius ∧
        (stepV1 (o1 s.iterations) s).wikiResults = (o1 s.iterations).wiki) := by
  intro o3 o1 maxR minR inc fuel s l
  constructor
  · intro hguard hw hmin
    obtain ⟨hrad, hlen⟩ := (loopGuard_eq_true maxR minR s).mp hguard
    have hne : l.isEmpty = false := by
      cases l with
      | nil => simp at hmin; omega
      | cons a as => rfl
    have hstep : stepV3 minR inc (o3 s.iterations) s =
        { currentRadius := s.currentRadius, wikiResults := l,
          osmAdminData := adminUpdate s.osmAdminData (o3 s.iterations).admin,
          osmFeaturesData :=
            s.osmFeaturesData ++ featuresElems (o3 s.iterations).features,
          iterations := s.iterations + 1 } := by
      unfold stepV3
      rw [hw]
      simp [wikiBranchV3, hne, hmin]
    have hg' : loopGuard maxR minR (stepV3 minR inc (o3 s.iterations) s) = false := by
      rw [hstep]
      unfold loopGuard
      simp [Nat.not_lt.mpr hmin]
    refine ⟨?_, ?_, ?_⟩
    · have hone : runLoopV3 o3 maxR minR inc (fuel + 1) s =
          runLoopV3 o3 maxR minR inc fuel (stepV3 minR inc (o3 s.iterations) s) := by
        simp [runLoopV3, hguard]
      rw [hone]
      exact runLoopV3_guard_false o3 maxR minR inc fuel _ hg'
    · rw [hstep]
    · rw [hstep]
  · intro hguard hmin
    obtain ⟨hrad, hlen⟩ := (loopGuard_eq_true maxR minR s).mp hguard
    have hne : (o1 s.iterations).wiki.isEmpty = false := by
      cases hl : (o1 s.iterations).wiki with
      | nil => rw [hl] at hmin; simp at hmin; omega
      | cons a as => rfl
    have hbr : (!(o1 s.iterations).wiki.isEmpty &&
        decide (minR ≤ (o1 s.iterations).wiki.length)) = true := by
      simp [hne, hmin]
    refine ⟨?_, rfl, rfl⟩
    simp [runLoopV1, hguard, hbr]

/-- Five sample geosearch results. -/
def placesFive : List Place :=
  [⟨"A", 1, 1⟩, ⟨"B", 1, 2⟩, ⟨"C", 1, 3⟩, ⟨"D", 1, 4⟩, ⟨"E", 1, 5⟩]

/-- An oracle on whose runs geosearch immediately returns five results. -/
def fiveRespV3 : Nat → IterRespV3 := fun _ => ⟨some (some placesFive), none, none⟩

/-- v1 version of `fiveRespV3`. -/
def fiveRespV1 : Nat → IterRespV1 := fun _ => ⟨placesFive, none, none⟩

/-- Witness for `C1_stop_at_min_results` at the programs' constants. -/
theorem C1_witness :
    loopGuard 10000 5 (initState 500) = true ∧
    (fiveRespV3 (initState 500).iterations).wiki = some (some placesFive) ∧
    5 ≤ placesFive.length ∧
    (runLoopV3 fiveRespV3 10000 5 500 (0 + 1) (initState 500) =
        some (stepV3 5 500 (fiveRespV3 (initState 500).iterations) (initState 500)) ∧
      (stepV3 5 500 (fiveRespV3 (initState 500).iterations)
        (initState 500)).currentRadius = (initState 500).currentRadius ∧
      (stepV3 5 500 (fiveRespV3 (initState 500).iterations)
        (initState 500)).wikiResults = placesFive) :=
  ⟨by decide, by decide, by decide,
    (C1_stop_at_min_results fiveRespV3 fiveRespV1 10000 5 500 0 (initState 500)
      placesFive).1 (by decide) (by decide) (by decide)⟩

/-- The cache guard never replaces a truthy value. -/
lemma adminUpdate_of_truthy (a r : Option TagDict) (h : adminTruthy a = true) :
    adminUpdate a r = a := by
  unfold adminUpdate
  rw [if_pos h]

/-- Folding the cache guard over any response list preserves a truthy value. -/
lemma foldl_adminUpdate_of_truthy (a : Option TagDict)
    (h : adminTruthy a = true) :
    ∀ l : List (Option TagDict), l.foldl adminUpdate a = a := by
  intro l
  induction l with
  | nil => rfl
  | cons x xs ih =>
    rw [List.foldl_cons, adminUpdate_of_truthy a x h]
    exact ih

/-- The loop's iteration counter never decreases. -/
lemma runLoopV3_iterations_ge (o : Nat → IterRespV3) (maxR minR inc : Nat) :
    ∀ (fuel : Nat) (s t : LoopState),
      runLoopV3 o maxR minR inc fuel s = some t → s.iterations ≤ t.iterations := by
  intro fuel
  induction fuel with
  | zero =>
    intro s t h
    unfold runLoopV3 at h
    split at h
    · cases h
    · cases h
      exact Nat.le_refl _
  | succ n ih =>
    intro s t h
    unfold runLoopV3 at h
    split at h
    · have := ih (stepV3 minR inc (o s.iterations) s) t h
      rw [stepV3_iterations] at this
      omega
    · cases h
      exact Nat.le_refl _

/-- The admin cache at loop exit is the fold of the cache guard over the admin
responses of the executed iterations. -/
lemma runLoopV3_admin_fold (o : Nat → IterRespV3) (maxR minR inc : Nat) :
    ∀ (fuel : Nat) (s t : LoopState),
      runLoopV3 o maxR minR inc fuel s = some t →
      t.osmAdminData =
        (adminSeq o s.iterations (t.iterations - s.iterations)).foldl
          adminUpdate s.osmAdminData := by
  intro fuel
  induction fuel with
  | zero =>
    intro s t h
    unfold runLoopV3 at h
    split at h
    · cases h
    · cases h
      simp [adminSeq]
  | succ n ih =>
    intro s t h
    unfold runLoopV3 at h
    split at h
    · have hrec := ih (stepV3 minR inc (o s.iterations) s) t h
      have hge := runLoopV3_iterations_ge o maxR minR inc n _ t h
      rw [stepV3_iterations] at hrec hge
      have hk : t.iterations - s.iterations =
          (t.iterations - (s.iterations + 1)) + 1 := by omega
      rw [hk]
      simp only [adminSeq, List.foldl_cons]
      rw [stepV3_osmAdminData] at hrec
      exact hrec
    · cases h
      simp [adminSeq]

/-- Folding the cache guard from a falsy start yields the first truthy entry,
when one exists. -/
lemma foldl_adminUpdate_find :
    ∀ (l : List (Option TagDict)) (a : Option TagDict),
      adminTruthy a = false → (∃ x ∈ l, adminTruthy x = true) →
      l.find? adminTruthy = some (l.foldl adminUpdate a) := by
  intro l
  induction l with
  | nil =>
    intro a ha hex
    rcases hex with ⟨x, hx, _⟩
    cases hx
  | cons y ys ih =>
    intro a ha hex
    have hupd : adminUpdate a y = y := by
      unfold adminUpdate
      rw [if_neg (by simp [ha])]
    cases hy : adminTruthy y with
    | true =>
      rw [List.find?_cons_of_pos ys hy, List.foldl_cons, hupd,
        foldl_adminUpdate_of_truthy y hy ys]
    | false =>
      rw [List.find?_cons_of_neg ys (by simp [hy]), List.foldl_cons, hupd]
      apply ih y hy
      rcases hex with ⟨x, hx, hxt⟩
      rcases List.mem_cons.mp hx with h1 | h1
      · subst h1
        rw [hxt] at hy
        cases hy
      · exact ⟨x, h1, hxt⟩

/-- One unfolding of the v1 loop under a true condition. -/
lemma runLoopV1_succ (o : Nat → IterRespV1) (maxR minR inc n : Nat)
    (s : LoopState) (hguard : loopGuard maxR minR s = true) :
    runLoopV1 o maxR minR inc (n + 1) s =
      if (!(o s.iterations).wiki.isEmpty &&
          decide (minR ≤ (o s.iterations).wiki.length)) then
        some (stepV1 (o s.iterations) s)
      else runLoopV1 o maxR minR inc n
        { stepV1 (o s.iterations) s with
          currentRadius := (stepV1 (o s.iterations) s).currentRadius + inc } := by
  simp only [runLoopV1]
  rw [if_pos hguard]

/-- The v1 loop's iteration counter never decreases. -/
lemma runLoopV1_iterations_ge (o : Nat → IterRespV1) (maxR minR inc : Nat) :
    ∀ (fuel : Nat) (s t : LoopState),
      runLoopV1 o maxR minR inc fuel s = some t → s.iterations ≤ t.iterations := by
  intro fuel
  induction fuel with
  | zero =>
    intro s t h
    unfold runLoopV1 at h
    split at h
    · cases h
    · cases h
      exact Nat.le_refl _
  | succ n ih =>
    intro s t h
    cases hguard : loopGuard maxR minR s with
    | false =>
      rw [runLoopV1_guard_false o maxR minR inc (n + 1) s hguard] at h
      cases h
      exact Nat.le_refl _
    | true =>
      rw [runLoopV1_succ o maxR minR inc n s hguard] at h
      cases hbr : (!(o s.iterations).wiki.isEmpty &&
          decide (minR ≤ (o s.iterations).wiki.length)) with
      | true =>
        rw [if_pos hbr] at h
        cases h
        show s.iterations ≤ s.iterations + 1
        omega
      | false =>
        rw [if_neg (by simp [hbr])] at h
        have h2 : s.iterations + 1 ≤ t.iterations :=
          ih _ t h
        omega

/-- The v1 admin cache at loop exit is the fold of the cache guard over the
admin responses of the executed iterations. -/
lemma runLoopV1_admin_fold (o : Nat → IterRespV1) (maxR minR inc : Nat) :
    ∀ (fuel : Nat) (s t : LoopState),
      runLoopV1 o maxR minR inc fuel s = some t →
      t.osmAdminData =
        (adminSeqV1 o s.iterations (t.iterations - s.iterations)).foldl
          adminUpdate s.osmAdminData := by
  intro fuel
  induction fuel with
  | zero =>
    intro s t h
    unfold runLoopV1 at h
    split at h
    · cases h
    · cases h
      simp [adminSeqV1]
  | succ n ih =>
    intro s t h
    cases hguard : loopGuard maxR minR s with
    | false =>
      rw [runLoopV1_guard_false o maxR minR inc (n + 1) s hguard] at h
      cases h
      simp [adminSeqV1]
    | true =>
      rw [runLoopV1_succ o maxR minR inc n s hguard] at h
      cases hbr : (!(o s.iterations).wiki.isEmpty &&
          decide (minR ≤ (o s.iterations).wiki.length)) with
      | true =>
        rw [if_pos hbr] at h
        cases h
        have hk : (stepV1 (o s.iterations) s).iterations - s.iterations = 0 + 1 := by
          show s.iterations + 1 - s.iterations = 0 + 1
          omega
        rw [hk]
        simp only [adminSeqV1, List.foldl_cons, List.foldl_nil]
        rfl
      | false =>
        rw [if_neg (by simp [hbr])] at h
        have hrec2 : t.osmAdminData =
            (adminSeqV1 o (s.iterations + 1)
              (t.iterations - (s.iterations + 1))).foldl adminUpdate
              (adminUpdate s.osmAdminData (o s.iterations).admin) :=
          ih _ t h
        have hge : s.iterations + 1 ≤ t.iterations :=
          runLoopV1_iterations_ge o maxR minR inc n _ t h
        have hk : t.iterations - s.iterations =
            (t.iterations - (s.iterations + 1)) + 1 := by omega
        rw [hk]
        simp only [adminSeqV1, List.foldl_cons]
        exact hrec2

/-- C4: in both variants, (1)/(3) once the admin cache holds a truthy
(non-empty) value, running the loop never changes it; (2)/(4) starting from
the program's initial state, if some executed iteration's reverse-geocoder
response is truthy, the value retained at loop exit is the first truthy
response (`find?` over the executed responses). -/
theorem C4_first_truthy_admin_retained :
    ∀ (o3 : Nat → IterRespV3) (o1 : Nat → IterRespV1) (maxR minR inc : Nat),
      (∀ (fuel : Nat) (s t : LoopState), adminTruthy s.osmAdminData = true →
        runLoopV3 o3 maxR minR inc fuel s = some t →
        t.osmAdminData = s.osmAdminData) ∧
      (∀ (fuel initR : Nat) (t : LoopState),
        runLoopV3 o3 maxR minR inc fuel (initState initR) = some t →
        (∃ x ∈ adminSeq o3 0 t.iterations, adminTruthy x = true) →
        (adminSeq o3 0 t.iterations).find? adminTruthy =
          some t.osmAdminData) ∧
      (∀ (fuel : Nat) (s t : LoopState), adminTruthy s.osmAdminData = true →
        runLoopV1 o1 maxR minR inc fuel s = some t →
        t.osmAdminData = s.osmAdminData) ∧
      (∀ (fuel initR : Nat) (t : LoopState),
        runLoopV1 o1 maxR minR inc fuel (initState initR) = some t →
        (∃ x ∈ adminSeqV1 o1 0 t.iterations, adminTruthy x = true) →
        (adminSeqV1 o1 0 t.iterations).find? adminTruthy =
          some t.osmAdminData) := by
  intro o3 o1 maxR minR inc
  refine ⟨?_, ?_, ?_, ?_⟩
  · intro fuel s t hT hrun
    rw [runLoopV3_admin_fold o3 maxR minR inc fuel s t hrun]
    exact foldl_adminUpdate_of_truthy _ hT _
  · intro fuel initR t hrun hex
    have hfold : t.osmAdminData =
        (adminSeq o3 0 t.iterations).foldl adminUpdate none :=
      runLoopV3_admin_fold o3 maxR minR inc fuel (initState initR) t hrun
    rw [hfold]
    exact foldl_adminUpdate_find _ none rfl hex
  · intro fuel s t hT hrun
    rw [runLoopV1_admin_fold o1 maxR minR inc fuel s t hrun]
    exact foldl_adminUpdate_of_truthy _ hT _
  · intro fuel initR t hrun hex
    have hfold : t.osmAdminData =
        (adminSeqV1 o1 0 t.iterations).foldl adminUpdate none :=
      runLoopV1_admin_fold o1 maxR minR inc fuel (initState initR) t hrun
    rw [hfold]
    exact foldl_adminUpdate_find _ none rfl hex

/-- An oracle whose reverse-geocoder succeeds immediately, alongside five
geosearch results. -/
def adminRespV3 : Nat → IterRespV3 :=
  fun _ => ⟨some (some placesFive), some [(displayNameKey, "Washington")], none⟩

/-- The state `adminRespV3` runs terminate in from the programs' constants. -/
def adminRunExit : LoopState :=
  { currentRadius := 500, wikiResults := placesFive,
    osmAdminData := some [(displayNameKey, "Washington")],
    osmFeaturesData := [], iterations := 1 }

/-- v1 version of `adminRespV3`. -/
def adminRespV1 : Nat → IterRespV1 :=
  fun _ => ⟨placesFive, some [(displayNameKey, "Washington")], none⟩

/-- Witness for `C4_first_truthy_admin_retained` (both find-conjuncts) on
concrete one-iteration runs of both loops. -/
theorem C4_witness :
    runLoopV3 adminRespV3 10000 5 500 20 (initState 500) = some adminRunExit ∧
    (∃ x ∈ adminSeq adminRespV3 0 adminRunExit.iterations,
      adminTruthy x = true) ∧
    (adminSeq adminRespV3 0 adminRunExit.iterations).find? adminTruthy =
      some adminRunExit.osmAdminData ∧
    runLoopV1 adminRespV1 10000 5 500 20 (initState 500) = some adminRunExit ∧
    (∃ x ∈ adminSeqV1 adminRespV1 0 adminRunExit.iterations,
      adminTruthy x = true) ∧
    (adminSeqV1 adminRespV1 0 adminRunExit.iterations).find? adminTruthy =
      some adminRunExit.osmAdminData :=
  ⟨by decide, by decide,
    (C4_first_truthy_admin_retained adminRespV3 adminRespV1 10000 5 500).2.1 20
      500 adminRunExit (by decide) (by decide),
    by decide, by decide,
    (C4_first_truthy_admin_retained adminRespV3 adminRespV1 10000 5 500).2.2.2
      20 500 adminRunExit (by decide) (by decide)⟩

/-! ## Distance theorems -/

/-- v3's haversine distance between identical points is `0`. -/
lemma haversine_distance_self (lat lon : ℝ) :
    haversine_distance lat lon lat lon = 0 := by
  simp [haversine_distance, radians, atan2]

/-- The library's haversine distance between identical points is `0`. -/
lemma haversine_library_self (lat lon : ℝ) :
    haversine_library lat lon lat lon = 0 := by
  simp [haversine_library, radians]

/-- The distances the v3 Wikipedia row loop emits. -/
lemma wiki_rows_v3_dists (o : String → HttpJsonResp (Option (List UrlPage))) :
    ∀ (ps : List Place) (rows : List ReportRow),
      wiki_rows_v3 o ps = Except.ok rows →
      rows.map ReportRow.dist = ps.map (fun p =>
        some ((haversine_distance (center_lat_v3 : ℝ) (center_lon_v3 : ℝ)
          (p.lat : ℝ) (p.lon : ℝ) : ℤ) : ℝ)) := by
  intro ps
  induction ps with
  | nil =>
    intro rows h
    have : rows = [] := by simpa [wiki_rows_v3] using h.symm
    subst this
    rfl
  | cons p ps ih =>
    intro rows h
    rw [wiki_rows_v3] at h
    obtain ⟨u, hu, h⟩ := bind_eq_ok h
    obtain ⟨rows0, hr, h⟩ := bind_eq_ok h
    cases h
    simp only [List.map_cons]
    rw [ih rows0 hr]
    rfl

/-- C5 (amended): in v3 every emitted Wikipedia distance is the haversine
distance from the v3 center with Earth radius 6 371 000 m rounded to the
nearest integer of meters, and in both variants the distance between identical
points is `0`; v1, however, emits the external haversine library's value,
unrounded (see the counterexample). -/
theorem C5_distance_characterization :
    (∀ (o : String → HttpJsonResp (Option (List UrlPage))) (ps : List Place)
      (rows : List ReportRow), wiki_rows_v3 o ps = Except.ok rows →
      rows.map ReportRow.dist = ps.map (fun p =>
        some ((haversine_distance (center_lat_v3 : ℝ) (center_lon_v3 : ℝ)
          (p.lat : ℝ) (p.lon : ℝ) : ℤ) : ℝ))) ∧
    (∀ lat lon : ℝ, haversine_distance lat lon lat lon = 0) ∧
    (∀ lat lon : ℝ, haversine_library lat lon lat lon = 0) :=
  ⟨wiki_rows_v3_dists, haversine_distance_self, haversine_library_self⟩

/-- Witness for `C5_distance_characterization` (first conjunct) on a
one-result run. -/
theorem C5_witness :
    wiki_rows_v3 notFoundUrlOracle [whPlace] =
      Except.ok [wiki_row_v3 whPlace none] ∧
    ([wiki_row_v3 whPlace none]).map ReportRow.dist =
      [whPlace].map (fun p =>
        some ((haversine_distance (center_lat_v3 : ℝ) (center_lon_v3 : ℝ)
          (p.lat : ℝ) (p.lon : ℝ) : ℤ) : ℝ)) :=
  ⟨rfl, C5_distance_characterization.1 notFoundUrlOracle [whPlace]
    [wiki_row_v3 whPlace none] rfl⟩

/-- The library's haversine distance from any point to its antipodal partner
(negated latitude, longitude shifted by 180°) is exactly `R·π`. -/
lemma haversine_library_antipode (lat lon : ℝ) :
    haversine_library lat lon (-lat) (lon + 180) =
      6371.0088 * 1000 * Real.pi := by
  have h1 : (-lat - lat) * Real.pi / 180 / 2 = -(lat * Real.pi / 180) := by
    ring
  have h2 : (lon + 180 - lon) * Real.pi / 180 / 2 = Real.pi / 2 := by
    ring
  have h3 : -lat * Real.pi / 180 = -(lat * Real.pi / 180) := by
    ring
  have key : Real.sin (-(lat * Real.pi / 180)) ^ 2 +
      Real.cos (lat * Real.pi / 180) * Real.cos (-(lat * Real.pi / 180)) *
        Real.sin (Real.pi / 2) ^ 2 = 1 := by
    rw [Real.sin_neg, Real.cos_neg, Real.sin_pi_div_two, neg_sq, one_pow,
      mul_one, ← Real.sin_sq_add_cos_sq (lat * Real.pi / 180)]
    ring
  simp only [haversine_library, radians]
  rw [h1, h2, h3, key, Real.sqrt_one, Real.arcsin_one]
  ring

/-- The place antipodal to the v1 center. -/
def antipodePlace : Place := ⟨"Antipode", -center_lat_v1, center_lon_v1 + 180⟩

/-- C5 (counterexample): for the retained result at the v1 center's antipode,
the v1 report emits the distance `6 371 008.8 · π` — an irrational number, so
in particular not the claimed integer number of meters (the rounded haversine
value), because v1 emits the haversine library's value unrounded. -/
theorem C5_counterexample :
    (wiki_section_v1 [antipodePlace]).map ReportRow.dist =
      [some (((63710088 / 10 : ℚ) : ℝ) * Real.pi)] ∧
    Irrational (((63710088 / 10 : ℚ) : ℝ) * Real.pi) := by
  constructor
  · have hsec : (wiki_section_v1 [antipodePlace]).map ReportRow.dist =
        [some (haversine_library (center_lat_v1 : ℝ) (center_lon_v1 : ℝ)
          ((antipodePlace.lat : ℚ) : ℝ) ((antipodePlace.lon : ℚ) : ℝ))] := rfl
    rw [hsec]
    have hlat : ((antipodePlace.lat : ℚ) : ℝ) = -(center_lat_v1 : ℝ) := by
      show ((-center_lat_v1 : ℚ) : ℝ) = -(center_lat_v1 : ℝ)
      push_cast
      ring
    have hlon : ((antipodePlace.lon : ℚ) : ℝ) = (center_lon_v1 : ℝ) + 180 := by
      show ((center_lon_v1 + 180 : ℚ) : ℝ) = (center_lon_v1 : ℝ) + 180
      push_cast
      ring
    rw [hlat, hlon, haversine_library_antipode]
    have hR : (6371.0088 * 1000 : ℝ) = ((63710088 / 10 : ℚ) : ℝ) := by
      norm_num
    rw [hR]
  · exact irrational_pi.rat_mul (by norm_num)

end GeoToWiki
